import Mathlib

/-!
Verification development for the retirement-income tax and withdrawal engine.

The TypeScript source is embedded shallowly over `ℚ`:
JavaScript numbers become exact rationals, `Math.round` becomes `jsRound`
(floor of `x + 1/2`, matching JS round-half-up), `Infinity` bracket tops
become `Option ℚ` with `none` standing for `+∞`, and optional account slots
become `Option` fields.  Display-only strings (explanations, descriptions,
labels) are omitted; every numeric field and every control-flow decision of
the source is preserved.
-/

/-- JS `Math.round`: round half away from zero for positives, i.e. `⌊x + 1/2⌋`
(also matches JS on negative halves: `Math.round (-0.5) = 0`). -/
def jsRound (x : ℚ) : ℚ := ((⌊x + 1/2⌋ : ℤ) : ℚ)

theorem jsRound_mono {x y : ℚ} (h : x ≤ y) : jsRound x ≤ jsRound y := by
  unfold jsRound
  exact_mod_cast Int.floor_le_floor (by linarith)

theorem jsRound_nonneg {x : ℚ} (h : 0 ≤ x) : 0 ≤ jsRound x := by
  unfold jsRound
  exact_mod_cast Int.le_floor.mpr (by push_cast; linarith)

/-- JS `Math.min x m` where `m : Option ℚ` encodes a possibly-infinite value
(`none` = `+∞`, so the minimum is just `x`). -/
def minInf (x : ℚ) : Option ℚ → ℚ
  | none => x
  | some y => min x y

/-- JS subtraction `m - x` where `m` may be `Infinity` (then the result stays
infinite). -/
def subInf : Option ℚ → ℚ → Option ℚ
  | none, _ => none
  | some m, x => some (m - x)

/-- JS comparison `x < m` where `m` may be `Infinity` (always true then). -/
def ltInf (x : ℚ) : Option ℚ → Prop
  | none => True
  | some y => x < y

instance (x : ℚ) (m : Option ℚ) : Decidable (ltInf x m) := by
  cases m <;> simp [ltInf] <;> infer_instance

/-- JS comparison `x ≥ m` for a possibly-infinite `x` against a possibly
infinite bound `m` (`none` = `+∞`; `Infinity ≥ anything` is true,
`finite ≥ Infinity` is false). -/
def geInf : Option ℚ → Option ℚ → Prop
  | none, _ => True
  | some _, none => False
  | some x, some y => x ≥ y

instance (a b : Option ℚ) : Decidable (geInf a b) := by
  cases a <;> cases b <;> simp [geInf] <;> infer_instance

/-! ### Data model (src/types/index.ts) -/

inductive FilingStatus where
  | single | mfj | mfs | hoh
deriving DecidableEq, Repr

inductive TargetType where
  | afterTax | gross
deriving DecidableEq, Repr

inductive StateTaxMethod where
  | none | rate | fixed
deriving DecidableEq, Repr

/-- A progressive-tax segment; `max = none` encodes the source's `Infinity`. -/
structure TaxBracket where
  min : ℚ
  max : Option ℚ
  rate : ℚ
deriving DecidableEq, Repr

structure TaxableAccount where
  balance : ℚ
  costBasis : ℚ
  unrealizedGains : ℚ
deriving DecidableEq, Repr

structure TraditionalAccount where
  balance : ℚ
  priorYearEndBalance : Option ℚ
deriving DecidableEq, Repr

structure RothAccount where
  balance : ℚ
deriving DecidableEq, Repr

structure SocialSecurityIncome where
  annualBenefit : ℚ
deriving DecidableEq, Repr

structure PensionIncome where
  annualBenefit : ℚ
  cola : ℚ
deriving DecidableEq, Repr

structure Portfolio where
  taxable : Option TaxableAccount
  traditional : Option TraditionalAccount
  roth : Option RothAccount
  socialSecurity : Option SocialSecurityIncome
  pension : Option PensionIncome
deriving DecidableEq, Repr

structure IncomeGoal where
  targetType : TargetType
  amount : ℚ
  filingStatus : FilingStatus
  primaryAge : ℕ
  spouseAge : Option ℕ
  useItemizedDeductions : Bool
  itemizedAmount : Option ℚ
  stateTaxMethod : StateTaxMethod
  stateTaxRate : Option ℚ
  stateTaxFixedAmount : Option ℚ
  planningHorizon : ℕ
deriving DecidableEq, Repr

structure WithdrawalStrategy where
  traditionalWithdrawal : ℚ
  taxableWithdrawal : ℚ
  rothWithdrawal : ℚ
  socialSecurityIncome : ℚ
  pensionIncome : ℚ
  rmdAmount : ℚ
  isSystemGenerated : Bool
deriving DecidableEq, Repr

structure RMDInfo where
  isRequired : Bool
  amount : ℚ
  age : ℕ
  priorYearBalance : ℚ
  distributionPeriod : ℚ
deriving DecidableEq, Repr

/-- An attributed income source (display description string omitted). -/
structure IncomeSource where
  amount : ℚ
deriving DecidableEq, Repr

structure BracketFill where
  rate : ℚ
  bracketMin : ℚ
  bracketMax : Option ℚ
  incomeInBracket : ℚ
  taxFromBracket : ℚ
  sources : List IncomeSource
deriving DecidableEq, Repr

/-! ### Constants (src/constants/tax2026.ts) -/

def TAX_YEAR : ℕ := 2026

def FEDERAL_BRACKETS : FilingStatus → List TaxBracket
  | .single =>
      [⟨0, some 12400, 0.10⟩, ⟨12400, some 50400, 0.12⟩,
       ⟨50400, some 105700, 0.22⟩, ⟨105700, some 201775, 0.24⟩,
       ⟨201775, some 256225, 0.32⟩, ⟨256225, some 640600, 0.35⟩,
       ⟨640600, none, 0.37⟩]
  | .mfj =>
      [⟨0, some 24800, 0.10⟩, ⟨24800, some 100800, 0.12⟩,
       ⟨100800, some 211400, 0.22⟩, ⟨211400, some 403550, 0.24⟩,
       ⟨403550, some 512450, 0.32⟩, ⟨512450, some 768700, 0.35⟩,
       ⟨768700, none, 0.37⟩]
  | .mfs =>
      [⟨0, some 12400, 0.10⟩, ⟨12400, some 50400, 0.12⟩,
       ⟨50400, some 105700, 0.22⟩, ⟨105700, some 201775, 0.24⟩,
       ⟨201775, some 256225, 0.32⟩, ⟨256225, some 384350, 0.35⟩,
       ⟨384350, none, 0.37⟩]
  | .hoh =>
      [⟨0, some 17700, 0.10⟩, ⟨17700, some 67450, 0.12⟩,
       ⟨67450, some 105700, 0.22⟩, ⟨105700, some 201775, 0.24⟩,
       ⟨201775, some 256200, 0.32⟩, ⟨256200, some 640600, 0.35⟩,
       ⟨640600, none, 0.37⟩]

def STANDARD_DEDUCTION : FilingStatus → ℚ
  | .single => 16100
  | .mfj => 32200
  | .mfs => 16100
  | .hoh => 24150

def CAPITAL_GAINS_BRACKETS : FilingStatus → List TaxBracket
  | .single => [⟨0, some 49450, 0⟩, ⟨49450, some 545500, 0.15⟩, ⟨545500, none, 0.20⟩]
  | .mfj => [⟨0, some 98900, 0⟩, ⟨98900, some 613700, 0.15⟩, ⟨613700, none, 0.20⟩]
  | .mfs => [⟨0, some 49450, 0⟩, ⟨49450, some 306850, 0.15⟩, ⟨306850, none, 0.20⟩]
  | .hoh => [⟨0, some 66200, 0⟩, ⟨66200, some 579600, 0.15⟩, ⟨579600, none, 0.20⟩]

structure SSThresholds where
  zeroThreshold : ℚ
  fiftyThreshold : ℚ
deriving DecidableEq, Repr

/-- SS taxation threshold rows; the table only has `single` and `mfj` rows. -/
def SS_TAXATION_THRESHOLDS_single : SSThresholds := ⟨25000, 34000⟩

def SS_TAXATION_THRESHOLDS_mfj : SSThresholds := ⟨32000, 44000⟩

/-! ### Ordinary-income bracket calculator (src/engine/taxBrackets.ts) -/

structure OrdinaryTaxResult where
  tax : ℚ
  bracketFill : List BracketFill
  marginalRate : ℚ
deriving DecidableEq, Repr

/-- The bracket walk of `calculateOrdinaryIncomeTax`: consumes
`remainingIncome` across `brackets`, carrying the running `marginalRate`.
`bracketSize = bracket.max - bracket.min` is infinite on the top bracket, so
`incomeInBracket = min remaining size` is `minInf`. -/
def ordinaryLoop (incomeSources : List IncomeSource) (totalSourceAmount : ℚ) :
    List TaxBracket → ℚ → ℚ → OrdinaryTaxResult
  | [], _, marginalRate => ⟨0, [], marginalRate⟩
  | b :: rest, remainingIncome, marginalRate =>
    if remainingIncome ≤ 0 then ⟨0, [], marginalRate⟩
    else
      let bracketSize := subInf b.max b.min
      let incomeInBracket := minInf remainingIncome bracketSize
      let taxFromBracket := incomeInBracket * b.rate
      let bracketSources : List IncomeSource :=
        if incomeSources ≠ [] ∧ 0 < totalSourceAmount then
          incomeSources.filterMap fun s =>
            let sourceAmountInBracket := incomeInBracket * (s.amount / totalSourceAmount)
            if 0 < sourceAmountInBracket then some ⟨sourceAmountInBracket⟩ else none
        else []
      let fill : BracketFill :=
        ⟨b.rate * 100, b.min, b.max, incomeInBracket, taxFromBracket, bracketSources⟩
      let marginalRate' := if 0 < incomeInBracket then b.rate else marginalRate
      let r := ordinaryLoop incomeSources totalSourceAmount rest
        (remainingIncome - incomeInBracket) marginalRate'
      ⟨taxFromBracket + r.tax, fill :: r.bracketFill, r.marginalRate⟩

def calculateOrdinaryIncomeTax (taxableIncome : ℚ) (filingStatus : FilingStatus)
    (incomeSources : List IncomeSource := []) : OrdinaryTaxResult :=
  let brackets := FEDERAL_BRACKETS filingStatus
  let totalSourceAmount := (incomeSources.map IncomeSource.amount).sum
  ordinaryLoop incomeSources totalSourceAmount brackets (max 0 taxableIncome) 0

/-! #### C2 helper lemmas -/

theorem ordinaryLoop_tax_eq_sum (srcs : List IncomeSource) (tsa : ℚ)
    (bs : List TaxBracket) (remaining marg : ℚ) :
    ((ordinaryLoop srcs tsa bs remaining marg).bracketFill.map
        BracketFill.taxFromBracket).sum =
      (ordinaryLoop srcs tsa bs remaining marg).tax := by
  induction bs generalizing remaining marg with
  | nil => simp [ordinaryLoop]
  | cons b rest ih =>
    by_cases h : remaining ≤ 0
    · simp [ordinaryLoop, h]
    · simp only [ordinaryLoop, if_neg h, List.map_cons, List.sum_cons]
      rw [ih]

theorem ordinaryLoop_zero (srcs : List IncomeSource) (tsa : ℚ)
    (bs : List TaxBracket) (marg : ℚ) :
    ordinaryLoop srcs tsa bs 0 marg = ⟨0, [], marg⟩ := by
  cases bs <;> simp [ordinaryLoop]

/-- A bracket list with an unbounded (Infinity-topped) member consumes all
remaining income: the recorded bracket fills sum to the full remaining amount. -/
theorem ordinaryLoop_income_eq_remaining (srcs : List IncomeSource) (tsa : ℚ)
    (bs : List TaxBracket) (remaining marg : ℚ) (h0 : 0 ≤ remaining)
    (hub : ∃ b ∈ bs, b.max = none) :
    ((ordinaryLoop srcs tsa bs remaining marg).bracketFill.map
        BracketFill.incomeInBracket).sum = remaining := by
  induction bs generalizing remaining marg with
  | nil => simp at hub
  | cons b rest ih =>
    by_cases h : remaining ≤ 0
    · have : remaining = 0 := le_antisymm h h0
      simp [ordinaryLoop, h, this]
    · push_neg at h
      rcases hb : b.max with _ | m
      · -- head bracket is unbounded: it takes everything that is left
        simp only [ordinaryLoop, if_neg (not_le.mpr h), hb, subInf, minInf,
          List.map_cons, List.sum_cons]
        rw [sub_self, ordinaryLoop_zero]
        simp
      · -- head bracket is bounded; the unbounded one is further down
        have hub' : ∃ b' ∈ rest, b'.max = none := by
          rcases hub with ⟨b', hmem, hnone⟩
          rcases List.mem_cons.mp hmem with rfl | hmem'
          · rw [hb] at hnone; cases hnone
          · exact ⟨b', hmem', hnone⟩
        simp only [ordinaryLoop, if_neg (not_le.mpr h), hb, subInf, minInf,
          List.map_cons, List.sum_cons]
        rw [ih _ _ (by simp [sub_nonneg, min_le_left]) hub']
        ring

theorem federalBrackets_unbounded (fs : FilingStatus) :
    ∃ b ∈ FEDERAL_BRACKETS fs, b.max = none := by
  cases fs <;> simp [FEDERAL_BRACKETS]

/-- C2.  For every taxable income `I ≥ 0`, every filing status and any
attributed source list, the per-bracket `incomeInBracket` amounts of
`calculateOrdinaryIncomeTax` sum to `I` (the top bracket is unbounded, so
`min I (top of highest bracket) = I`), and the per-bracket `taxFromBracket`
amounts sum exactly to the returned total tax. -/
theorem ordinary_tax_bracket_coverage (I : ℚ) (fs : FilingStatus)
    (srcs : List IncomeSource) (hI : 0 ≤ I) :
    (((calculateOrdinaryIncomeTax I fs srcs).bracketFill.map
        BracketFill.incomeInBracket).sum = I) ∧
    (((calculateOrdinaryIncomeTax I fs srcs).bracketFill.map
        BracketFill.taxFromBracket).sum = (calculateOrdinaryIncomeTax I fs srcs).tax) := by
  constructor
  · unfold calculateOrdinaryIncomeTax
    rw [ordinaryLoop_income_eq_remaining _ _ _ _ _ (le_max_left 0 I)
      (federalBrackets_unbounded fs)]
    exact max_eq_right hI
  · exact ordinaryLoop_tax_eq_sum _ _ _ _ _

/-- Witness for C2 at a concrete input. -/
theorem ordinary_tax_bracket_coverage_witness :
    (0 : ℚ) ≤ 60000 ∧
    ((((calculateOrdinaryIncomeTax 60000 .single [⟨60000⟩]).bracketFill.map
        BracketFill.incomeInBracket).sum = 60000) ∧
     (((calculateOrdinaryIncomeTax 60000 .single [⟨60000⟩]).bracketFill.map
        BracketFill.taxFromBracket).sum =
        (calculateOrdinaryIncomeTax 60000 .single [⟨60000⟩]).tax)) :=
  ⟨by norm_num, ordinary_tax_bracket_coverage 60000 .single [⟨60000⟩] (by norm_num)⟩

/-! ### Capital-gains bracket calculator (src/engine/capitalGains.ts) -/

structure CapGainsSlice where
  rate : ℚ
  amount : ℚ
  tax : ℚ
deriving DecidableEq, Repr

structure CapGainsResult where
  tax : ℚ
  effectiveRate : ℚ
  bracketBreakdown : List CapGainsSlice
deriving DecidableEq, Repr

/-- The bracket walk of `calculateCapitalGainsTax`.  `incomeProcessed` starts
at the ordinary-income stacking floor and is set to each processed bracket's
top (`none` = `Infinity` after the unbounded top bracket; any later bracket is
then skipped by the `incomeProcessed >= bracketEnd` test, as in JS where
`Infinity >= x` holds). -/
def capGainsLoop : List TaxBracket → ℚ → Option ℚ → ℚ × List CapGainsSlice
  | [], _, _ => (0, [])
  | b :: rest, remainingGains, incomeProcessed =>
    if remainingGains ≤ 0 then (0, [])
    else if geInf incomeProcessed b.max then
      -- bracket fully filled by ordinary income (or floor already infinite): skip
      capGainsLoop rest remainingGains incomeProcessed
    else
      -- not skipped, so `incomeProcessed` is finite here
      let ip := incomeProcessed.getD 0
      let gainsStartInBracket := max b.min ip
      match b.max with
      | some bracketEnd =>
        let roomInBracket := bracketEnd - gainsStartInBracket
        let gainsInBracket := min remainingGains roomInBracket
        if 0 < gainsInBracket then
          let taxInBracket := gainsInBracket * b.rate
          let r := capGainsLoop rest (remainingGains - gainsInBracket) (some bracketEnd)
          (taxInBracket + r.1, ⟨b.rate * 100, gainsInBracket, taxInBracket⟩ :: r.2)
        else capGainsLoop rest remainingGains (some bracketEnd)
      | none =>
        -- roomInBracket is infinite, so gainsInBracket = remainingGains > 0
        let gainsInBracket := remainingGains
        let taxInBracket := gainsInBracket * b.rate
        let r := capGainsLoop rest (remainingGains - gainsInBracket) none
        (taxInBracket + r.1, ⟨b.rate * 100, gainsInBracket, taxInBracket⟩ :: r.2)

def calculateCapitalGainsTax (longTermCapitalGains taxableOrdinaryIncome : ℚ)
    (filingStatus : FilingStatus) : CapGainsResult :=
  if longTermCapitalGains ≤ 0 then ⟨0, 0, []⟩
  else
    let brackets := CAPITAL_GAINS_BRACKETS filingStatus
    let r := capGainsLoop brackets longTermCapitalGains (some taxableOrdinaryIncome)
    let effectiveRate := if 0 < longTermCapitalGains then r.1 / longTermCapitalGains else 0
    ⟨r.1, effectiveRate, r.2⟩

/-- `getCapitalGainsRate`: rate (as percent) of the first bracket whose top is
at or above the given total taxable income; past all brackets, the last one. -/
def getCapitalGainsRateLoop (totalTaxableIncome : ℚ) : List TaxBracket → Option ℚ
  | [] => none
  | b :: rest =>
    match b.max with
    | none => some (b.rate * 100)   -- income ≤ Infinity always holds
    | some m =>
      if totalTaxableIncome ≤ m then some (b.rate * 100)
      else getCapitalGainsRateLoop totalTaxableIncome rest

def getCapitalGainsRate (totalTaxableIncome : ℚ) (filingStatus : FilingStatus) : ℚ :=
  let brackets := CAPITAL_GAINS_BRACKETS filingStatus
  ((getCapitalGainsRateLoop totalTaxableIncome brackets).getD
    (((brackets.getLast?).map (·.rate * 100)).getD 0))

/-! #### C3 helper lemmas -/

theorem capGainsLoop_zero (bs : List TaxBracket) (ip : Option ℚ) :
    capGainsLoop bs 0 ip = (0, []) := by
  cases bs <;> simp [capGainsLoop]

theorem capGainsLoop_skip (bmin bend r : ℚ) (rest : List TaxBracket) (G ip : ℚ)
    (hle : bend ≤ ip) :
    capGainsLoop (⟨bmin, some bend, r⟩ :: rest) G (some ip) =
      capGainsLoop rest G (some ip) := by
  by_cases hG : G ≤ 0
  · cases rest <;> simp [capGainsLoop, hG]
  · rw [capGainsLoop, if_neg hG, if_pos (show geInf (some ip) (some bend) from hle)]

theorem capGainsLoop_process (bmin bend r : ℚ) (rest : List TaxBracket) (G ip : ℚ)
    (hG : 0 < G) (hmin : bmin ≤ ip) (hip : ip < bend) :
    (capGainsLoop (⟨bmin, some bend, r⟩ :: rest) G (some ip)).1 =
      min G (bend - ip) * r +
        (capGainsLoop rest (G - min G (bend - ip)) (some bend)).1 := by
  have hgin : 0 < min G (bend - ip) := lt_min hG (by linarith)
  rw [capGainsLoop, if_neg (not_le.mpr hG),
    if_neg (show ¬ geInf (some ip) (some bend) from not_le.mpr hip)]
  simp only [Option.getD_some, max_eq_right hmin, if_pos hgin]

theorem capGainsLoop_unbounded (bmin r : ℚ) (rest : List TaxBracket) (G ip : ℚ)
    (hG : 0 < G) :
    (capGainsLoop (⟨bmin, none, r⟩ :: rest) G (some ip)).1 = G * r := by
  rw [capGainsLoop, if_neg (not_le.mpr hG),
    if_neg (show ¬ geInf (some ip) none from not_false)]
  simp only [Option.getD_some, sub_self, capGainsLoop_zero]
  ring

/-- Cumulative capital-gains tax on income stacked from `0` up to `x`, for the
three-bracket shape `[0, t1) @ 0%, [t1, t2) @ 15%, [t2, ∞) @ 20%` shared by
all filing statuses.  Written as a max of affine pieces (hence convex). -/
def capGainsRamp (t1 t2 x : ℚ) : ℚ :=
  max (max 0 (0.15 * (x - t1))) (0.15 * (t2 - t1) + 0.20 * (x - t2))

theorem capGainsRamp_low {t1 t2 x : ℚ} (h12 : t1 < t2) (hx : x ≤ t1) :
    capGainsRamp t1 t2 x = 0 := by
  unfold capGainsRamp
  rw [max_eq_left (by linarith : (0.15:ℚ) * (x - t1) ≤ 0),
    max_eq_left (by linarith : (0.15:ℚ) * (t2 - t1) + 0.20 * (x - t2) ≤ 0)]

theorem capGainsRamp_mid {t1 t2 x : ℚ} (h1 : t1 ≤ x) (h2 : x ≤ t2) :
    capGainsRamp t1 t2 x = 0.15 * (x - t1) := by
  unfold capGainsRamp
  rw [max_eq_right (by linarith : (0:ℚ) ≤ 0.15 * (x - t1)),
    max_eq_left (by linarith : (0.15:ℚ) * (t2 - t1) + 0.20 * (x - t2) ≤ 0.15 * (x - t1))]

theorem capGainsRamp_high {t1 t2 x : ℚ} (h12 : t1 < t2) (hx : t2 ≤ x) :
    capGainsRamp t1 t2 x = 0.15 * (t2 - t1) + 0.20 * (x - t2) := by
  unfold capGainsRamp
  rw [max_eq_right (max_le (by linarith) (by linarith))]

/-- The stacked bracket walk computes exactly the ramp increment from the
ordinary-income floor `O` to `O + G`. -/
theorem capGainsLoop_eq_ramp (t1 t2 G O : ℚ)
    (ht12 : t1 < t2) (hG : 0 < G) (hO : 0 ≤ O) :
    (capGainsLoop [⟨0, some t1, 0⟩, ⟨t1, some t2, 0.15⟩, ⟨t2, none, 0.20⟩]
        G (some O)).1 = capGainsRamp t1 t2 (O + G) - capGainsRamp t1 t2 O := by
  by_cases h1 : t1 ≤ O
  · rw [capGainsLoop_skip _ _ _ _ _ _ h1]
    by_cases h2 : t2 ≤ O
    · -- both lower brackets are below the floor: everything is taxed at 20%
      rw [capGainsLoop_skip _ _ _ _ _ _ h2, capGainsLoop_unbounded _ _ _ _ _ hG,
        capGainsRamp_high ht12 h2, capGainsRamp_high ht12 (by linarith)]
      ring
    · push_neg at h2
      rw [capGainsLoop_process _ _ _ _ _ _ hG h1 h2]
      by_cases h3 : G ≤ t2 - O
      · -- all gains fit below t2
        rw [min_eq_left h3, sub_self, capGainsLoop_zero,
          capGainsRamp_mid h1 h2.le, capGainsRamp_mid (by linarith) (by linarith)]
        simp
        ring
      · push_neg at h3
        rw [min_eq_right h3.le, capGainsLoop_unbounded _ _ _ _ _ (by linarith),
          capGainsRamp_mid h1 h2.le, capGainsRamp_high ht12 (by linarith)]
        ring
  · push_neg at h1
    rw [capGainsLoop_process _ _ _ _ _ _ hG hO h1]
    by_cases h3 : G ≤ t1 - O
    · -- all gains absorbed by the 0% bracket
      rw [min_eq_left h3, sub_self, capGainsLoop_zero,
        capGainsRamp_low ht12 h1.le, capGainsRamp_low ht12 (by linarith)]
      simp
    · push_neg at h3
      rw [min_eq_right h3.le,
        capGainsLoop_process _ _ _ _ _ _ (by linarith) le_rfl ht12]
      by_cases h4 : G - (t1 - O) ≤ t2 - t1
      · rw [min_eq_left h4, sub_self, capGainsLoop_zero,
          capGainsRamp_low ht12 h1.le, capGainsRamp_mid (by linarith) (by linarith)]
        simp
        ring
      · push_neg at h4
        rw [min_eq_right h4.le, capGainsLoop_unbounded _ _ _ _ _ (by linarith),
          capGainsRamp_low ht12 h1.le, capGainsRamp_high ht12 (by linarith)]
        ring

/-- Ramp increments over a fixed width `G` are monotone in the starting point
(convexity of the max-of-affines ramp). -/
theorem capGainsRamp_sub_mono {t1 t2 G a b : ℚ} (hG : 0 ≤ G) (hab : a ≤ b) :
    capGainsRamp t1 t2 (a + G) - capGainsRamp t1 t2 a ≤
      capGainsRamp t1 t2 (b + G) - capGainsRamp t1 t2 b := by
  unfold capGainsRamp
  have la1 : (0:ℚ) ≤
      max (max 0 (0.15 * (a - t1))) (0.15 * (t2 - t1) + 0.20 * (a - t2)) :=
    le_trans (le_max_left _ _) (le_max_left _ _)
  have la2 : 0.15 * (a - t1) ≤
      max (max 0 (0.15 * (a - t1))) (0.15 * (t2 - t1) + 0.20 * (a - t2)) :=
    le_trans (le_max_right _ _) (le_max_left _ _)
  have la3 : 0.15 * (t2 - t1) + 0.20 * (a - t2) ≤
      max (max 0 (0.15 * (a - t1))) (0.15 * (t2 - t1) + 0.20 * (a - t2)) :=
    le_max_right _ _
  have lb1 : (0:ℚ) ≤
      max (max 0 (0.15 * (b + G - t1))) (0.15 * (t2 - t1) + 0.20 * (b + G - t2)) :=
    le_trans (le_max_left _ _) (le_max_left _ _)
  have lb2 : 0.15 * (b + G - t1) ≤
      max (max 0 (0.15 * (b + G - t1))) (0.15 * (t2 - t1) + 0.20 * (b + G - t2)) :=
    le_trans (le_max_right _ _) (le_max_left _ _)
  have lb3 : 0.15 * (t2 - t1) + 0.20 * (b + G - t2) ≤
      max (max 0 (0.15 * (b + G - t1))) (0.15 * (t2 - t1) + 0.20 * (b + G - t2)) :=
    le_max_right _ _
  rcases max_choice (max 0 (0.15 * (b - t1))) (0.15 * (t2 - t1) + 0.20 * (b - t2)) with hB | hB <;>
    rw [hB] <;>
    [rcases max_choice (0:ℚ) (0.15 * (b - t1)) with hB' | hB'; skip] <;>
    [rw [hB']; rw [hB']; skip] <;>
    rw [sub_le_iff_le_add] <;>
    refine max_le (max_le ?_ ?_) ?_ <;> linarith

/-- C3.  For every fixed long-term gains amount `G ≥ 0` and filing status,
`calculateCapitalGainsTax` is monotone non-decreasing in the taxable
ordinary-income floor: `O₁ ≤ O₂` (both `≥ 0`) implies `tax G O₁ ≤ tax G O₂`. -/
theorem capGains_tax_mono_in_ordinary (fs : FilingStatus) (G O₁ O₂ : ℚ)
    (hG : 0 ≤ G) (hO : 0 ≤ O₁) (h12 : O₁ ≤ O₂) :
    (calculateCapitalGainsTax G O₁ fs).tax ≤ (calculateCapitalGainsTax G O₂ fs).tax := by
  rcases eq_or_lt_of_le hG with hG0 | hGpos
  · simp [calculateCapitalGainsTax, ← hG0]
  · unfold calculateCapitalGainsTax
    rw [if_neg (not_le.mpr hGpos), if_neg (not_le.mpr hGpos)]
    have hO2 : 0 ≤ O₂ := le_trans hO h12
    cases fs <;>
      simp only [CAPITAL_GAINS_BRACKETS] <;>
      rw [capGainsLoop_eq_ramp _ _ _ _ (by norm_num) hGpos hO,
        capGainsLoop_eq_ramp _ _ _ _ (by norm_num) hGpos hO2] <;>
      exact capGainsRamp_sub_mono hG h12

/-- Witness for C3 at a concrete input. -/
theorem capGains_tax_mono_in_ordinary_witness :
    (0 : ℚ) ≤ 100000 ∧ (0 : ℚ) ≤ 20000 ∧ (20000 : ℚ) ≤ 80000 ∧
    (calculateCapitalGainsTax 100000 20000 .single).tax ≤
      (calculateCapitalGainsTax 100000 80000 .single).tax :=
  ⟨by norm_num, by norm_num, by norm_num,
    capGains_tax_mono_in_ordinary .single 100000 20000 80000
      (by norm_num) (by norm_num) (by norm_num)⟩

/-! ### Social Security taxability calculator (src/engine/socialSecurity.ts) -/

structure SSTaxableResult where
  taxableAmount : ℚ
  taxablePercent : ℚ
  provisionalIncome : ℚ
deriving DecidableEq, Repr

/-- The three-tier taxable amount before the final `Math.round`, exactly as
computed in the branches of `calculateSocialSecurityTaxable`:
below `zeroThreshold` nothing is taxable, between the thresholds up to 50%,
above `fiftyThreshold` up to 85%. -/
def ssTaxableRaw (ssBenefits provisionalIncome : ℚ) (thresholds : SSThresholds) : ℚ :=
  if provisionalIncome ≤ thresholds.zeroThreshold then 0
  else if provisionalIncome ≤ thresholds.fiftyThreshold then
    let excessOverFirst := provisionalIncome - thresholds.zeroThreshold
    min (ssBenefits * 0.5) (excessOverFirst * 0.5)
  else
    let baseAmount :=
      min (ssBenefits * 0.5) ((thresholds.fiftyThreshold - thresholds.zeroThreshold) * 0.5)
    let excessOverSecond := provisionalIncome - thresholds.fiftyThreshold
    let additionalTaxable := excessOverSecond * 0.85
    min (ssBenefits * 0.85) (baseAmount + additionalTaxable)

/-- `calculateSocialSecurityTaxable` — in the zero tier the source sets the
percent to the literal `0`, which coincides with `0 / ssBenefits * 100`. -/
def calculateSocialSecurityTaxable (ssBenefits otherIncome : ℚ)
    (taxExemptInterest : ℚ := 0) (filingStatus : FilingStatus) : SSTaxableResult :=
  if ssBenefits ≤ 0 then ⟨0, 0, 0⟩
  else
    -- MFS and HoH use the single threshold row (documented simplification)
    let thresholds :=
      if filingStatus = .mfj then SS_TAXATION_THRESHOLDS_mfj
      else SS_TAXATION_THRESHOLDS_single
    let provisionalIncome := otherIncome + taxExemptInterest + ssBenefits * 0.5
    let taxableAmount := ssTaxableRaw ssBenefits provisionalIncome thresholds
    let taxablePercent := taxableAmount / ssBenefits * 100
    ⟨jsRound taxableAmount, taxablePercent, provisionalIncome⟩

/-! #### C4 / C5 / C9 lemmas -/

theorem ssTaxableRaw_mono (B : ℚ) (th : SSThresholds) (hB : 0 ≤ B)
    (hzf : th.zeroThreshold ≤ th.fiftyThreshold) {P₁ P₂ : ℚ} (h : P₁ ≤ P₂) :
    ssTaxableRaw B P₁ th ≤ ssTaxableRaw B P₂ th := by
  unfold ssTaxableRaw
  split_ifs <;> (try simp only [min_def]) <;> (try split_ifs) <;> linarith

theorem ssTaxableRaw_le (B P : ℚ) (th : SSThresholds) (hB : 0 ≤ B)
    (hzf : th.zeroThreshold ≤ th.fiftyThreshold) :
    ssTaxableRaw B P th ≤ 0.85 * B := by
  unfold ssTaxableRaw
  split_ifs <;> (try simp only [min_def]) <;> (try split_ifs) <;> linarith

theorem ssThresholds_of_status (fs : FilingStatus) :
    (if fs = .mfj then SS_TAXATION_THRESHOLDS_mfj
      else SS_TAXATION_THRESHOLDS_single).zeroThreshold ≤
    (if fs = .mfj then SS_TAXATION_THRESHOLDS_mfj
      else SS_TAXATION_THRESHOLDS_single).fiftyThreshold := by
  by_cases h : fs = .mfj <;>
    simp [h, SS_TAXATION_THRESHOLDS_mfj, SS_TAXATION_THRESHOLDS_single] <;> norm_num

theorem ssTaxable_amount_eq (B o e : ℚ) (fs : FilingStatus) (hB : 0 < B) :
    (calculateSocialSecurityTaxable B o e fs).taxableAmount =
      jsRound (ssTaxableRaw B (o + e + B * 0.5)
        (if fs = .mfj then SS_TAXATION_THRESHOLDS_mfj
          else SS_TAXATION_THRESHOLDS_single)) := by
  unfold calculateSocialSecurityTaxable
  rw [if_neg (not_le.mpr hB)]

/-- C4 (amended).  For fixed benefit `B > 0`, tax-exempt interest and filing
status, the rounded SS taxable amount is non-decreasing in other income, and
is always at most `0.85 × B` rounded to the nearest dollar (the unrounded
claim `≤ 0.85 × B` fails by at most half a dollar of rounding, see the
counterexample). -/
theorem ss_taxable_mono_and_round_bound (B e : ℚ) (fs : FilingStatus) (hB : 0 < B) :
    (∀ o₁ o₂ : ℚ, o₁ ≤ o₂ →
      (calculateSocialSecurityTaxable B o₁ e fs).taxableAmount ≤
        (calculateSocialSecurityTaxable B o₂ e fs).taxableAmount) ∧
    (∀ o : ℚ,
      (calculateSocialSecurityTaxable B o e fs).taxableAmount ≤ jsRound (0.85 * B)) := by
  constructor
  · intro o₁ o₂ h
    rw [ssTaxable_amount_eq _ _ _ _ hB, ssTaxable_amount_eq _ _ _ _ hB]
    exact jsRound_mono (ssTaxableRaw_mono B _ hB.le (ssThresholds_of_status fs)
      (by linarith))
  · intro o
    rw [ssTaxable_amount_eq _ _ _ _ hB]
    exact jsRound_mono (ssTaxableRaw_le B _ _ hB.le (ssThresholds_of_status fs))

/-- Witness for C4 at a concrete input. -/
theorem ss_taxable_mono_and_round_bound_witness :
    (0:ℚ) < 24000 ∧ (10000:ℚ) ≤ 30000 ∧
    ((calculateSocialSecurityTaxable 24000 10000 0 .single).taxableAmount ≤
      (calculateSocialSecurityTaxable 24000 30000 0 .single).taxableAmount) ∧
    (calculateSocialSecurityTaxable 24000 30000 0 .single).taxableAmount ≤
      jsRound (0.85 * 24000) :=
  ⟨by norm_num, by norm_num,
    (ss_taxable_mono_and_round_bound 24000 0 .single (by norm_num)).1 10000 30000
      (by norm_num),
    (ss_taxable_mono_and_round_bound 24000 0 .single (by norm_num)).2 30000⟩

/-- Counterexample to C4 as stated: with benefit `B = 2` and large other
income the code returns `Math.round 1.7 = 2`, which exceeds `0.85 × B = 1.7`. -/
theorem ss_taxable_bound_counterexample :
    (0:ℚ) < 2 ∧
    ¬ ((calculateSocialSecurityTaxable 2 100000 0 .single).taxableAmount ≤ 0.85 * 2) := by
  constructor
  · norm_num
  · rw [ssTaxable_amount_eq _ _ _ _ (by norm_num : (0:ℚ) < 2)]
    simp only [reduceCtorEq, if_false]
    norm_num [ssTaxableRaw, SS_TAXATION_THRESHOLDS_single, jsRound]

/-- C5 (amended).  Single filer with benefit `B > 0`: at provisional income
exactly `$25,000` the taxable amount is `0`; at `$25,001` it is positive
provided the benefit is at least one dollar (for sub-dollar benefits the
source's final rounding maps the positive raw amount back to `0`, see the
counterexample). -/
theorem ss_single_zero_threshold_boundary (B o e : ℚ) (hB : 0 < B) :
    (o + e + B * 0.5 = 25000 →
      (calculateSocialSecurityTaxable B o e .single).taxableAmount = 0) ∧
    (1 ≤ B → o + e + B * 0.5 = 25001 →
      0 < (calculateSocialSecurityTaxable B o e .single).taxableAmount) := by
  constructor
  · intro hP
    rw [ssTaxable_amount_eq _ _ _ _ hB]
    simp only [reduceCtorEq, if_false]
    rw [hP]
    norm_num [ssTaxableRaw, SS_TAXATION_THRESHOLDS_single, jsRound]
  · intro hB1 hP
    rw [ssTaxable_amount_eq _ _ _ _ hB]
    simp only [reduceCtorEq, if_false]
    rw [hP]
    unfold ssTaxableRaw SS_TAXATION_THRESHOLDS_single
    norm_num
    rw [min_eq_right (by linarith : (1/2 : ℚ) ≤ B * (1/2))]
    norm_num [jsRound]

/-- C9.  With a non-positive Social Security benefit the calculator
short-circuits: taxable amount, taxable percent and provisional income are
all reported as `0` (the provisional-income formula is not evaluated). -/
theorem ss_nonpositive_benefit_short_circuit (B o e : ℚ) (fs : FilingStatus)
    (hB : B ≤ 0) :
    calculateSocialSecurityTaxable B o e fs =
      ⟨0, 0, 0⟩ := by
  unfold calculateSocialSecurityTaxable
  rw [if_pos hB]

/-- Witness for C9 at a concrete input (a formula-valued provisional income
would have been `5000 + 100 + 0 = 5100`, but `0` is reported). -/
theorem ss_nonpositive_benefit_short_circuit_witness :
    (0:ℚ) ≤ 0 ∧
    calculateSocialSecurityTaxable 0 5000 100 .single = ⟨0, 0, 0⟩ :=
  ⟨le_refl 0, ss_nonpositive_benefit_short_circuit 0 5000 100 .single (le_refl 0)⟩

/-! ### RMD calculator (src/constants/rmdTables.ts, src/engine/rmd.ts) -/

def RMD_START_AGE : ℕ := 73

/-- IRS Uniform Lifetime Table (Table III): age ↦ distribution period.
Ages outside 72–120 have no entry. -/
def UNIFORM_LIFETIME_TABLE : ℕ → Option ℚ
  | 72 => some 27.4
  | 73 => some 26.5
  | 74 => some 25.5
  | 75 => some 24.6
  | 76 => some 23.7
  | 77 => some 22.9
  | 78 => some 22.0
  | 79 => some 21.1
  | 80 => some 20.2
  | 81 => some 19.4
  | 82 => some 18.5
  | 83 => some 17.7
  | 84 => some 16.8
  | 85 => some 16.0
  | 86 => some 15.2
  | 87 => some 14.4
  | 88 => some 13.7
  | 89 => some 12.9
  | 90 => some 12.2
  | 91 => some 11.5
  | 92 => some 10.8
  | 93 => some 10.1
  | 94 => some 9.5
  | 95 => some 8.9
  | 96 => some 8.4
  | 97 => some 7.8
  | 98 => some 7.3
  | 99 => some 6.8
  | 100 => some 6.4
  | 101 => some 6.0
  | 102 => some 5.6
  | 103 => some 5.2
  | 104 => some 4.9
  | 105 => some 4.6
  | 106 => some 4.3
  | 107 => some 4.1
  | 108 => some 3.9
  | 109 => some 3.7
  | 110 => some 3.5
  | 111 => some 3.4
  | 112 => some 3.3
  | 113 => some 3.1
  | 114 => some 3.0
  | 115 => some 2.9
  | 116 => some 2.8
  | 117 => some 2.7
  | 118 => some 2.5
  | 119 => some 2.3
  | 120 => some 2.0
  | _ => none

/-- `getDistributionPeriod`: `0` below the start age, otherwise the table
entry, falling back to the age-120 entry (`TABLE[age] ?? TABLE[120]`). -/
def getDistributionPeriod (age : ℕ) : ℚ :=
  if age < RMD_START_AGE then 0
  else (UNIFORM_LIFETIME_TABLE age).getD ((UNIFORM_LIFETIME_TABLE 120).getD 0)

def calculateRMD (age : ℕ) (priorYearEndBalance : ℚ) : RMDInfo :=
  if age < RMD_START_AGE ∨ priorYearEndBalance ≤ 0 then
    ⟨false, 0, age, priorYearEndBalance, 0⟩
  else
    let distributionPeriod := getDistributionPeriod age
    let amount := jsRound (priorYearEndBalance / distributionPeriod)
    ⟨true, amount, age, priorYearEndBalance, distributionPeriod⟩

/-! #### C6 lemmas -/

theorem uniformLifetimeTable_pos {a : ℕ} {d : ℚ}
    (h : UNIFORM_LIFETIME_TABLE a = some d) : 0 < d := by
  unfold UNIFORM_LIFETIME_TABLE at h
  split at h <;> simp_all <;> linarith

theorem getDistributionPeriod_nonneg (age : ℕ) : 0 ≤ getDistributionPeriod age := by
  unfold getDistributionPeriod
  split_ifs with h
  · exact le_refl 0
  · rcases hT : UNIFORM_LIFETIME_TABLE age with _ | d
    · simp [hT]
      norm_num [UNIFORM_LIFETIME_TABLE]
    · simp [hT]
      exact (uniformLifetimeTable_pos hT).le

theorem calculateRMD_amount_nonneg (age : ℕ) (B : ℚ) :
    0 ≤ (calculateRMD age B).amount := by
  unfold calculateRMD
  split_ifs with h
  · exact le_refl 0
  · push_neg at h
    exact jsRound_nonneg (div_nonneg h.2.le (getDistributionPeriod_nonneg age))

/-- C6.  `calculateRMD` returns not-required/zero below age 73 or with a
non-positive balance; at age ≥ 73 with positive balance it returns required
with `amount = round (balance / divisor)` where the divisor is the Uniform
Lifetime Table entry, ages past 120 clamping to the age-120 entry (2.0);
the age-73 divisor is 26.5. -/
theorem rmd_calculation_spec :
    (∀ (age : ℕ) (B : ℚ), age < 73 ∨ B ≤ 0 →
      calculateRMD age B = ⟨false, 0, age, B, 0⟩) ∧
    (∀ (age : ℕ) (B : ℚ), 73 ≤ age → 0 < B →
      (calculateRMD age B).isRequired = true ∧
      (calculateRMD age B).amount = jsRound (B / getDistributionPeriod age)) ∧
    (∀ age : ℕ, 121 ≤ age → getDistributionPeriod age = getDistributionPeriod 120) ∧
    getDistributionPeriod 120 = 2.0 ∧
    getDistributionPeriod 73 = 26.5 := by
  refine ⟨?_, ?_, ?_, rfl, rfl⟩
  · intro age B h
    unfold calculateRMD
    rw [if_pos]
    exact h
  · intro age B hage hB
    have h : ¬ (age < RMD_START_AGE ∨ B ≤ 0) := by
      push_neg
      exact ⟨not_lt.mp (by simpa [RMD_START_AGE] using not_lt.mpr hage), hB⟩
    unfold calculateRMD
    rw [if_neg h]
    exact ⟨rfl, rfl⟩
  · intro age hage
    unfold getDistributionPeriod
    rw [if_neg (by unfold RMD_START_AGE; omega)]
    rw [if_neg (by unfold RMD_START_AGE; omega)]
    -- past the table maximum the lookup misses and falls back to the 120 entry
    have hnone : UNIFORM_LIFETIME_TABLE age = none := by
      unfold UNIFORM_LIFETIME_TABLE
      split
      all_goals try rfl
      all_goals omega
    rw [hnone]
    rfl

/-- Witness for C6 at concrete inputs: age 72 yields no RMD even with a
positive balance; age 73 with balance 500000 yields the rounded quotient by
the 26.5 divisor. -/
theorem rmd_calculation_spec_witness :
    (calculateRMD 72 500000 = ⟨false, 0, 72, 500000, 0⟩) ∧
    (0:ℚ) < 500000 ∧
    (calculateRMD 73 500000).isRequired = true ∧
    (calculateRMD 73 500000).amount = jsRound (500000 / getDistributionPeriod 73) :=
  ⟨rmd_calculation_spec.1 72 500000 (Or.inl (by omega)),
   by norm_num,
   (rmd_calculation_spec.2.1 73 500000 (by omega) (by norm_num)).1,
   (rmd_calculation_spec.2.1 73 500000 (by omega) (by norm_num)).2⟩

/-! ### Deductions (src/engine/deductions.ts) -/

inductive DeductionType where
  | standard | itemized
deriving DecidableEq, Repr

structure DeductionResult where
  amount : ℚ
  dtype : DeductionType
deriving DecidableEq, Repr

/-- `calculateDeduction` — the JS guard `!useItemized || !itemizedAmount`
treats a missing and a zero itemized amount alike (falsy). -/
def calculateDeduction (filingStatus : FilingStatus) (useItemized : Bool)
    (itemizedAmount : Option ℚ := none) : DeductionResult :=
  let standardAmount := STANDARD_DEDUCTION filingStatus
  match useItemized, itemizedAmount with
  | false, _ => ⟨standardAmount, .standard⟩
  | true, none => ⟨standardAmount, .standard⟩
  | true, some a =>
    if a = 0 then ⟨standardAmount, .standard⟩
    else if standardAmount < a then ⟨a, .itemized⟩
    else ⟨standardAmount, .standard⟩

/-! ### Tax breakdown orchestrator (src/engine/calculateTax.ts)

The source computes the breakdown as one function body; each intermediate
`const` is embedded as a named definition (`tb…`) so the data flow of the
source (steps 1–11) is preserved verbatim without term duplication. -/

structure CapGainsBracketInfo where
  rate : ℚ
  threshold : ℚ
deriving DecidableEq, Repr

structure TaxBreakdown where
  ordinaryIncome : ℚ
  qualifiedDividends : ℚ
  longTermCapitalGains : ℚ
  socialSecurityGross : ℚ
  socialSecurityTaxable : ℚ
  pensionGross : ℚ
  pensionTaxable : ℚ
  rothIncome : ℚ
  grossIncome : ℚ
  adjustedGrossIncome : ℚ
  deductions : ℚ
  deductionType : DeductionType
  taxableIncome : ℚ
  ordinaryIncomeTax : ℚ
  capitalGainsTax : ℚ
  stateTax : ℚ
  bracketFill : List BracketFill
  capitalGainsRate : ℚ
  capitalGainsBracket : CapGainsBracketInfo
  totalTax : ℚ
  afterTaxIncome : ℚ
  effectiveRate : ℚ
  effectiveRateOnAGI : ℚ
  effectiveRateOnTaxable : ℚ
  marginalOrdinaryRate : ℚ
  marginalCapGainsRate : ℚ
  rmdAmount : ℚ
  rmdIsSatisfied : Bool

/-- Step 1: capital gains realized by the taxable withdrawal — the account's
gains fraction `(balance − basis) / balance` (0 when the balance is 0). -/
def tbCapitalGains (strategy : WithdrawalStrategy) (portfolio : Portfolio) : ℚ :=
  match portfolio.taxable with
  | some acct =>
    if 0 < strategy.taxableWithdrawal then
      (if 0 < acct.balance then
        strategy.taxableWithdrawal * ((acct.balance - acct.costBasis) / acct.balance)
      else strategy.taxableWithdrawal * 0)
    else 0
  | none => 0

/-- Step 2: taxable Social Security, with other income = traditional +
pension + capital gains (Roth excluded). -/
def tbSSResult (strategy : WithdrawalStrategy) (portfolio : Portfolio)
    (goal : IncomeGoal) : SSTaxableResult :=
  calculateSocialSecurityTaxable strategy.socialSecurityIncome
    (strategy.traditionalWithdrawal + strategy.pensionIncome + tbCapitalGains strategy portfolio)
    0 goal.filingStatus

/-- Step 3: gross income — all five amounts at gross value. -/
def tbGrossIncome (strategy : WithdrawalStrategy) : ℚ :=
  strategy.traditionalWithdrawal + strategy.taxableWithdrawal + strategy.rothWithdrawal +
    strategy.socialSecurityIncome + strategy.pensionIncome

/-- Step 4: AGI — traditional + pension + capital gains + taxable SS. -/
def tbAGI (strategy : WithdrawalStrategy) (portfolio : Portfolio) (goal : IncomeGoal) : ℚ :=
  strategy.traditionalWithdrawal + strategy.pensionIncome +
    tbCapitalGains strategy portfolio + (tbSSResult strategy portfolio goal).taxableAmount

/-- Step 5: the deduction in effect. -/
def tbDeduction (goal : IncomeGoal) : DeductionResult :=
  calculateDeduction goal.filingStatus goal.useItemizedDeductions goal.itemizedAmount

/-- Step 6a: ordinary income — traditional + pension + taxable SS. -/
def tbOrdinaryIncome (strategy : WithdrawalStrategy) (portfolio : Portfolio)
    (goal : IncomeGoal) : ℚ :=
  strategy.traditionalWithdrawal + strategy.pensionIncome +
    (tbSSResult strategy portfolio goal).taxableAmount

/-- Step 6b: taxable ordinary income after the deduction, floored at 0. -/
def tbTaxableOrdinaryIncome (strategy : WithdrawalStrategy) (portfolio : Portfolio)
    (goal : IncomeGoal) : ℚ :=
  max 0 (tbOrdinaryIncome strategy portfolio goal - (tbDeduction goal).amount)

/-- Step 7: attributed sources (traditional, pension, taxable SS), each
included only when positive. -/
def tbOrdinarySources (strategy : WithdrawalStrategy) (portfolio : Portfolio)
    (goal : IncomeGoal) : List IncomeSource :=
  (if 0 < strategy.traditionalWithdrawal then [(⟨strategy.traditionalWithdrawal⟩ : IncomeSource)] else []) ++
  (if 0 < strategy.pensionIncome then [(⟨strategy.pensionIncome⟩ : IncomeSource)] else []) ++
  (if 0 < (tbSSResult strategy portfolio goal).taxableAmount then
    [(⟨(tbSSResult strategy portfolio goal).taxableAmount⟩ : IncomeSource)] else [])

/-- Step 8: ordinary income tax. -/
def tbOrdinaryTax (strategy : WithdrawalStrategy) (portfolio : Portfolio)
    (goal : IncomeGoal) : OrdinaryTaxResult :=
  calculateOrdinaryIncomeTax (tbTaxableOrdinaryIncome strategy portfolio goal)
    goal.filingStatus (tbOrdinarySources strategy portfolio goal)

/-- Step 9: capital-gains tax, stacked on taxable ordinary income. -/
def tbCapGainsTax (strategy : WithdrawalStrategy) (portfolio : Portfolio)
    (goal : IncomeGoal) : CapGainsResult :=
  calculateCapitalGainsTax (tbCapitalGains strategy portfolio)
    (tbTaxableOrdinaryIncome strategy portfolio goal) goal.filingStatus

/-- Step 10: state tax (JS truthiness: missing or zero rate/amount is falsy). -/
def tbStateTax (strategy : WithdrawalStrategy) (portfolio : Portfolio)
    (goal : IncomeGoal) : ℚ :=
  if goal.stateTaxMethod = .rate ∧ goal.stateTaxRate.getD 0 ≠ 0 then
    (tbTaxableOrdinaryIncome strategy portfolio goal + tbCapitalGains strategy portfolio) *
      goal.stateTaxRate.getD 0
  else if goal.stateTaxMethod = .fixed ∧ goal.stateTaxFixedAmount.getD 0 ≠ 0 then
    goal.stateTaxFixedAmount.getD 0
  else 0

/-- Step 11: total tax = (ordinary + capital gains) + state. -/
def tbTotalTax (strategy : WithdrawalStrategy) (portfolio : Portfolio)
    (goal : IncomeGoal) : ℚ :=
  ((tbOrdinaryTax strategy portfolio goal).tax + (tbCapGainsTax strategy portfolio goal).tax) +
    tbStateTax strategy portfolio goal

/-- Total taxable income (ordinary + gains), the third effective-rate base. -/
def tbTotalTaxableIncome (strategy : WithdrawalStrategy) (portfolio : Portfolio)
    (goal : IncomeGoal) : ℚ :=
  tbTaxableOrdinaryIncome strategy portfolio goal + tbCapitalGains strategy portfolio

def calculateTaxBreakdown (strategy : WithdrawalStrategy) (portfolio : Portfolio)
    (goal : IncomeGoal) : TaxBreakdown :=
  { ordinaryIncome := tbOrdinaryIncome strategy portfolio goal
    qualifiedDividends := 0
    longTermCapitalGains := tbCapitalGains strategy portfolio
    socialSecurityGross := strategy.socialSecurityIncome
    socialSecurityTaxable := (tbSSResult strategy portfolio goal).taxableAmount
    pensionGross := strategy.pensionIncome
    pensionTaxable := strategy.pensionIncome
    rothIncome := strategy.rothWithdrawal
    grossIncome := tbGrossIncome strategy
    adjustedGrossIncome := tbAGI strategy portfolio goal
    deductions := (tbDeduction goal).amount
    deductionType := (tbDeduction goal).dtype
    taxableIncome := tbTotalTaxableIncome strategy portfolio goal
    ordinaryIncomeTax := (tbOrdinaryTax strategy portfolio goal).tax
    capitalGainsTax := (tbCapGainsTax strategy portfolio goal).tax
    stateTax := tbStateTax strategy portfolio goal
    bracketFill := (tbOrdinaryTax strategy portfolio goal).bracketFill
    capitalGainsRate := (tbCapGainsTax strategy portfolio goal).effectiveRate * 100
    capitalGainsBracket :=
      ⟨getCapitalGainsRate (tbTotalTaxableIncome strategy portfolio goal) goal.filingStatus,
       tbTotalTaxableIncome strategy portfolio goal⟩
    totalTax := tbTotalTax strategy portfolio goal
    afterTaxIncome := tbGrossIncome strategy - tbTotalTax strategy portfolio goal
    effectiveRate :=
      if 0 < tbGrossIncome strategy then
        tbTotalTax strategy portfolio goal / tbGrossIncome strategy
      else 0
    effectiveRateOnAGI :=
      if 0 < tbAGI strategy portfolio goal then
        tbTotalTax strategy portfolio goal / tbAGI strategy portfolio goal
      else 0
    effectiveRateOnTaxable :=
      if 0 < tbTotalTaxableIncome strategy portfolio goal then
        tbTotalTax strategy portfolio goal / tbTotalTaxableIncome strategy portfolio goal
      else 0
    marginalOrdinaryRate := (tbOrdinaryTax strategy portfolio goal).marginalRate * 100
    marginalCapGainsRate := getCapitalGainsRate (tbTotalTaxableIncome strategy portfolio goal) goal.filingStatus
    rmdAmount := strategy.rmdAmount
    rmdIsSatisfied :=
      decide (strategy.rmdAmount = 0 ∨ strategy.rmdAmount ≤ strategy.traditionalWithdrawal) }

/-- C7.  The orchestrator's ratio computations are all guarded: a zero gross
income, AGI, or taxable income yields a zero effective rate, and a taxable
account with zero balance contributes zero capital gains (gains fraction 0),
so no ratio is ever undefined. -/
theorem taxBreakdown_zero_denominator_guards (s : WithdrawalStrategy)
    (p : Portfolio) (g : IncomeGoal) :
    ((calculateTaxBreakdown s p g).grossIncome = 0 →
      (calculateTaxBreakdown s p g).effectiveRate = 0) ∧
    ((calculateTaxBreakdown s p g).adjustedGrossIncome = 0 →
      (calculateTaxBreakdown s p g).effectiveRateOnAGI = 0) ∧
    ((calculateTaxBreakdown s p g).taxableIncome = 0 →
      (calculateTaxBreakdown s p g).effectiveRateOnTaxable = 0) ∧
    (∀ acct, p.taxable = some acct → acct.balance = 0 →
      (calculateTaxBreakdown s p g).longTermCapitalGains = 0) := by
  refine ⟨?_, ?_, ?_, ?_⟩
  · intro h
    have h' : tbGrossIncome s = 0 := h
    show (if 0 < tbGrossIncome s then tbTotalTax s p g / tbGrossIncome s else 0) = 0
    rw [h']
    norm_num
  · intro h
    have h' : tbAGI s p g = 0 := h
    show (if 0 < tbAGI s p g then tbTotalTax s p g / tbAGI s p g else 0) = 0
    rw [h']
    norm_num
  · intro h
    have h' : tbTotalTaxableIncome s p g = 0 := h
    show (if 0 < tbTotalTaxableIncome s p g then
        tbTotalTax s p g / tbTotalTaxableIncome s p g else 0) = 0
    rw [h']
    norm_num
  · intro acct hacct hbal
    show tbCapitalGains s p = 0
    unfold tbCapitalGains
    rw [hacct]
    simp [hbal]

/-- Witness for C7 at a concrete input (zero strategy, zero-balance taxable
account). -/
theorem taxBreakdown_zero_denominator_guards_witness :
    ((calculateTaxBreakdown ⟨0, 0, 0, 0, 0, 0, true⟩
        ⟨some ⟨0, 0, 0⟩, none, none, none, none⟩
        ⟨.gross, 0, .single, 70, none, false, none, .none, none, none, 95⟩).grossIncome = 0) ∧
    ((calculateTaxBreakdown ⟨0, 0, 0, 0, 0, 0, true⟩
        ⟨some ⟨0, 0, 0⟩, none, none, none, none⟩
        ⟨.gross, 0, .single, 70, none, false, none, .none, none, none, 95⟩).effectiveRate = 0) ∧
    ((calculateTaxBreakdown ⟨0, 0, 0, 0, 0, 0, true⟩
        ⟨some ⟨0, 0, 0⟩, none, none, none, none⟩
        ⟨.gross, 0, .single, 70, none, false, none, .none, none, none, 95⟩).longTermCapitalGains = 0) := by
  have hg : (calculateTaxBreakdown ⟨0, 0, 0, 0, 0, 0, true⟩
      ⟨some ⟨0, 0, 0⟩, none, none, none, none⟩
      ⟨.gross, 0, .single, 70, none, false, none, .none, none, none, 95⟩).grossIncome = 0 := by
    show tbGrossIncome ⟨0, 0, 0, 0, 0, 0, true⟩ = 0
    norm_num [tbGrossIncome]
  refine ⟨hg,
    (taxBreakdown_zero_denominator_guards _ _ _).1 hg,
    (taxBreakdown_zero_denominator_guards _ _ _).2.2.2 ⟨0, 0, 0⟩ rfl rfl⟩

/-! ### Strategy generator (src/engine/strategyGenerator.ts)

The source builds the strategy in one function body through five greedy
phases; each intermediate `const`/accumulator is embedded as a named
definition so the data flow matches the source step for step. -/

structure LowBracket where
  max : Option ℚ
  rate : ℚ
deriving DecidableEq, Repr

/-- `getLowBrackets`: brackets with rate ≤ 12%, keeping `{max, rate}`. -/
def getLowBrackets (filingStatus : FilingStatus) : List LowBracket :=
  ((FEDERAL_BRACKETS filingStatus).filter (fun b => decide (b.rate ≤ 0.12))).map
    (fun b => ⟨b.max, b.rate⟩)

/-- `estimateOrdinaryTax`'s bracket walk (no fills, no `max 0` on entry). -/
def estimateOrdinaryTaxLoop : List TaxBracket → ℚ → ℚ
  | [], _ => 0
  | b :: rest, remaining =>
    if remaining ≤ 0 then 0
    else
      let incomeInBracket := minInf remaining (subInf b.max b.min)
      incomeInBracket * b.rate + estimateOrdinaryTaxLoop rest (remaining - incomeInBracket)

def estimateOrdinaryTax (taxableIncome : ℚ) (filingStatus : FilingStatus) : ℚ :=
  estimateOrdinaryTaxLoop (FEDERAL_BRACKETS filingStatus) taxableIncome

/-- The ≤10-iteration gross estimator for an after-tax target ($500
tolerance); `fuel` counts the iterations left. -/
def estimateGrossLoop (afterTaxTarget : ℚ) (filingStatus : FilingStatus)
    (deduction : ℚ) : ℕ → ℚ → ℚ
  | 0, gross => gross
  | fuel + 1, gross =>
    let taxableIncome := max 0 (gross - deduction)
    let estimatedTax := estimateOrdinaryTax taxableIncome filingStatus
    let afterTax := gross - estimatedTax
    if |afterTax - afterTaxTarget| < 500 then gross
    else estimateGrossLoop afterTaxTarget filingStatus deduction fuel
      (gross + (afterTaxTarget - afterTax))

def estimateGrossForAfterTax (afterTaxTarget : ℚ) (filingStatus : FilingStatus)
    (deduction : ℚ) : ℚ :=
  estimateGrossLoop afterTaxTarget filingStatus deduction 10 afterTaxTarget

/-- Available balances and benefits (`portfolio.x?.y ?? 0`). -/
def traditionalAvailable (p : Portfolio) : ℚ := (p.traditional.map (·.balance)).getD 0

def taxableAvailable (p : Portfolio) : ℚ := (p.taxable.map (·.balance)).getD 0

def rothAvailableOf (p : Portfolio) : ℚ := (p.roth.map (·.balance)).getD 0

def ssAnnualOf (p : Portfolio) : ℚ := (p.socialSecurity.map (·.annualBenefit)).getD 0

def pensionAnnualOf (p : Portfolio) : ℚ := (p.pension.map (·.annualBenefit)).getD 0

/-- `portfolio.traditional?.priorYearEndBalance ?? traditionalAvailable`. -/
def priorYearBalanceOf (p : Portfolio) : ℚ :=
  (p.traditional.bind (·.priorYearEndBalance)).getD (traditionalAvailable p)

/-- Phase 0: the RMD seeded as the traditional-withdrawal floor. -/
def rmdRequiredOf (p : Portfolio) (g : IncomeGoal) : ℚ :=
  (calculateRMD g.primaryAge (priorYearBalanceOf p)).amount

def strategyDeduction (g : IncomeGoal) : ℚ :=
  (calculateDeduction g.filingStatus g.useItemizedDeductions g.itemizedAmount).amount

/-- `getCurrentSSTaxable` local helper: SS taxable with pension counted as
other income. -/
def getCurrentSSTaxable (ssAnnual pensionAnnual : ℚ) (filingStatus : FilingStatus)
    (traditionalAmt capGains : ℚ) : ℚ :=
  (calculateSocialSecurityTaxable ssAnnual (traditionalAmt + capGains + pensionAnnual)
    0 filingStatus).taxableAmount

/-- Target gross resolution. -/
def targetGrossOf (g : IncomeGoal) : ℚ :=
  if g.targetType = .gross then g.amount
  else estimateGrossForAfterTax g.amount g.filingStatus (strategyDeduction g)

/-- Remaining need after Social Security, pension and the RMD. -/
def remainingNeeded0 (p : Portfolio) (g : IncomeGoal) : ℚ :=
  targetGrossOf g - ssAnnualOf p - pensionAnnualOf p - rmdRequiredOf p g

/-- Phase 1: fill the ≤12% brackets with traditional withdrawals.  State is
`(traditionalWithdrawal, remainingNeeded)`; both `break` conditions return
the state unchanged.  An unbounded bracket max (impossible in the concrete
low-bracket tables) gives infinite JS room, passing the `0 < room` test and
leaving the minimum over the two finite bounds. -/
def phase1Loop (deduction ssAnnual pensionAnnual tradAvail : ℚ)
    (filingStatus : FilingStatus) : List LowBracket → ℚ × ℚ → ℚ × ℚ
  | [], s => s
  | bracket :: rest, (traditionalWithdrawal, remainingNeeded) =>
    if remainingNeeded ≤ 0 then (traditionalWithdrawal, remainingNeeded)
    else if tradAvail ≤ traditionalWithdrawal then (traditionalWithdrawal, remainingNeeded)
    else
      let currentSSTaxable :=
        getCurrentSSTaxable ssAnnual pensionAnnual filingStatus traditionalWithdrawal 0
      let currentTaxableOrdinary := traditionalWithdrawal + currentSSTaxable - deduction
      match bracket.max with
      | some m =>
        let bracketRoom := max 0 (m - max 0 currentTaxableOrdinary)
        if 0 < bracketRoom then
          let ssMultiplier := if 0 < currentSSTaxable then (1.85 : ℚ) else 1.5
          let effectiveRoom := bracketRoom / ssMultiplier
          let additionalTraditional :=
            min effectiveRoom (min remainingNeeded (tradAvail - traditionalWithdrawal))
          phase1Loop deduction ssAnnual pensionAnnual tradAvail filingStatus rest
            (traditionalWithdrawal + additionalTraditional,
             remainingNeeded - additionalTraditional)
        else
          phase1Loop deduction ssAnnual pensionAnnual tradAvail filingStatus rest
            (traditionalWithdrawal, remainingNeeded)
      | none =>
        let additionalTraditional := min remainingNeeded (tradAvail - traditionalWithdrawal)
        phase1Loop deduction ssAnnual pensionAnnual tradAvail filingStatus rest
          (traditionalWithdrawal + additionalTraditional,
           remainingNeeded - additionalTraditional)

def phase1Result (p : Portfolio) (g : IncomeGoal) : ℚ × ℚ :=
  phase1Loop (strategyDeduction g) (ssAnnualOf p) (pensionAnnualOf p)
    (traditionalAvailable p) g.filingStatus (getLowBrackets g.filingStatus)
    (rmdRequiredOf p g, remainingNeeded0 p g)

/-- SS taxable recomputed with the final phase-1 traditional amount. -/
def finalSSTaxableOf (p : Portfolio) (g : IncomeGoal) : ℚ :=
  getCurrentSSTaxable (ssAnnualOf p) (pensionAnnualOf p) g.filingStatus
    (phase1Result p g).1 0

/-- Phase 2: harvest 0%-rate capital gains.  The gains fraction defaults to
0.4 without taxable-account data; a non-positive fraction falls back to the
full balance as the cap (JS `gainsRatio > 0 ? … : taxableAvailable`). -/
def phase2Amount (p : Portfolio) (g : IncomeGoal) : ℚ :=
  if 0 < (phase1Result p g).2 ∧ 0 < taxableAvailable p then
    let zeroCapGainsBracket := (CAPITAL_GAINS_BRACKETS g.filingStatus).headD ⟨0, none, 0⟩
    let currentTaxableIncome := (phase1Result p g).1 + finalSSTaxableOf p g - strategyDeduction g
    match zeroCapGainsBracket.max with
    | some zm =>
      if currentTaxableIncome < zm then
        let zeroRateRoom := zm - max 0 currentTaxableIncome
        let gainsFrac :=
          match p.taxable with
          | some acct => (acct.balance - acct.costBasis) / acct.balance
          | none => 0.4
        let maxWithdrawalFor0Pct :=
          if 0 < gainsFrac then zeroRateRoom / gainsFrac else taxableAvailable p
        min (phase1Result p g).2 (min (taxableAvailable p) maxWithdrawalFor0Pct)
      else 0
    | none =>
      -- infinite zero-rate ceiling: the `<` test holds and the infinite room
      -- drops out of the minimum (not the case for the concrete tables)
      min (phase1Result p g).2 (taxableAvailable p)
  else 0

def remAfter2 (p : Portfolio) (g : IncomeGoal) : ℚ :=
  (phase1Result p g).2 - phase2Amount p g

/-- Phase 3: Roth for any remaining need. -/
def phase3Amount (p : Portfolio) (g : IncomeGoal) : ℚ :=
  if 0 < remAfter2 p g ∧ 0 < rothAvailableOf p then
    min (remAfter2 p g) (rothAvailableOf p)
  else 0

def remAfter3 (p : Portfolio) (g : IncomeGoal) : ℚ :=
  remAfter2 p g - phase3Amount p g

/-- Phase 4: more traditional (higher brackets). -/
def phase4Amount (p : Portfolio) (g : IncomeGoal) : ℚ :=
  if 0 < remAfter3 p g ∧ (phase1Result p g).1 < traditionalAvailable p then
    min (remAfter3 p g) (traditionalAvailable p - (phase1Result p g).1)
  else 0

def remAfter4 (p : Portfolio) (g : IncomeGoal) : ℚ :=
  remAfter3 p g - phase4Amount p g

/-- Phase 5: more taxable. -/
def phase5Amount (p : Portfolio) (g : IncomeGoal) : ℚ :=
  if 0 < remAfter4 p g ∧ phase2Amount p g < taxableAvailable p then
    min (remAfter4 p g) (taxableAvailable p - phase2Amount p g)
  else 0

/-- Finalize: round every amount, force `traditional ≥ RMD`. -/
def generateStrategyBase (p : Portfolio) (g : IncomeGoal) : WithdrawalStrategy :=
  { traditionalWithdrawal :=
      max (jsRound ((phase1Result p g).1 + phase4Amount p g)) (rmdRequiredOf p g)
    taxableWithdrawal := jsRound (phase2Amount p g + phase5Amount p g)
    rothWithdrawal := jsRound (phase3Amount p g)
    socialSecurityIncome := jsRound (ssAnnualOf p)
    pensionIncome := jsRound (pensionAnnualOf p)
    rmdAmount := rmdRequiredOf p g
    isSystemGenerated := true }

/-- One withdrawal adjustment of the after-tax refinement loop: on shortfall
prefer Roth, then traditional (×1.25), then taxable (×1.15); on surplus
reduce traditional down to the RMD floor (×0.8), then taxable (×0.9), then
Roth. -/
def refineAdjust (s : WithdrawalStrategy) (p : Portfolio) (difference : ℚ) :
    WithdrawalStrategy :=
  let absDiff := |difference|
  if 0 < difference then
    let rothAvail := rothAvailableOf p - s.rothWithdrawal
    let tradAvail := traditionalAvailable p - s.traditionalWithdrawal
    let taxAvail := taxableAvailable p - s.taxableWithdrawal
    if 0 < rothAvail then
      { s with rothWithdrawal := min (s.rothWithdrawal + absDiff) (rothAvailableOf p) }
    else if 0 < tradAvail then
      { s with traditionalWithdrawal := min (s.traditionalWithdrawal + absDiff * 1.25) (traditionalAvailable p) }
    else if 0 < taxAvail then
      { s with taxableWithdrawal := min (s.taxableWithdrawal + absDiff * 1.15) (taxableAvailable p) }
    else s
  else
    let minTraditional := s.rmdAmount
    if minTraditional < s.traditionalWithdrawal then
      { s with traditionalWithdrawal := s.traditionalWithdrawal - min (absDiff * 0.8) (s.traditionalWithdrawal - minTraditional) }
    else if 0 < s.taxableWithdrawal then
      { s with taxableWithdrawal := s.taxableWithdrawal - min (absDiff * 0.9) s.taxableWithdrawal }
    else if 0 < s.rothWithdrawal then
      { s with rothWithdrawal := s.rothWithdrawal - min absDiff s.rothWithdrawal }
    else s

/-- End-of-iteration rounding and RMD re-clamp. -/
def refineClamp (s : WithdrawalStrategy) : WithdrawalStrategy :=
  { s with
    traditionalWithdrawal := max (jsRound s.traditionalWithdrawal) s.rmdAmount
    taxableWithdrawal := jsRound s.taxableWithdrawal
    rothWithdrawal := jsRound s.rothWithdrawal }

/-- The ≤15-iteration refinement loop ($500 tolerance), recomputing the full
tax breakdown each iteration. -/
def refineLoop (p : Portfolio) (g : IncomeGoal) (targetAfterTax : ℚ) :
    ℕ → WithdrawalStrategy → TaxBreakdown → WithdrawalStrategy
  | 0, s, _ => s
  | fuel + 1, s, breakdown =>
    let difference := targetAfterTax - breakdown.afterTaxIncome
    if |difference| < 500 then s
    else
      let s' := refineClamp (refineAdjust s p difference)
      refineLoop p g targetAfterTax fuel s' (calculateTaxBreakdown s' p g)

def refineForAfterTaxTarget (initialStrategy : WithdrawalStrategy) (p : Portfolio)
    (g : IncomeGoal) : WithdrawalStrategy :=
  refineLoop p g g.amount 15 initialStrategy (calculateTaxBreakdown initialStrategy p g)

def generateStrategy (p : Portfolio) (g : IncomeGoal) : WithdrawalStrategy :=
  let strategy := generateStrategyBase p g
  if g.targetType = .afterTax then refineForAfterTaxTarget strategy p g
  else strategy

/-! #### C1: the RMD floor survives generation and refinement -/

theorem refineAdjust_rmd (s : WithdrawalStrategy) (p : Portfolio) (d : ℚ) :
    (refineAdjust s p d).rmdAmount = s.rmdAmount := by
  simp only [refineAdjust]
  split_ifs <;> rfl

theorem refineClamp_rmd (s : WithdrawalStrategy) :
    (refineClamp s).rmdAmount = s.rmdAmount := rfl

theorem refineClamp_floor (s : WithdrawalStrategy) :
    (refineClamp s).rmdAmount ≤ (refineClamp s).traditionalWithdrawal :=
  le_max_right _ _

theorem refineLoop_rmd_floor (p : Portfolio) (g : IncomeGoal) (t : ℚ) (fuel : ℕ) :
    ∀ (s : WithdrawalStrategy) (b : TaxBreakdown),
      s.rmdAmount ≤ s.traditionalWithdrawal →
      (refineLoop p g t fuel s b).rmdAmount = s.rmdAmount ∧
      (refineLoop p g t fuel s b).rmdAmount ≤
        (refineLoop p g t fuel s b).traditionalWithdrawal := by
  induction fuel with
  | zero => exact fun s b h => ⟨rfl, h⟩
  | succ n ih =>
    intro s b h
    rw [refineLoop]
    by_cases hd : |t - b.afterTaxIncome| < 500
    · rw [if_pos hd]
      exact ⟨rfl, h⟩
    · rw [if_neg hd]
      have hrmd : (refineClamp (refineAdjust s p (t - b.afterTaxIncome))).rmdAmount
          = s.rmdAmount := by
        rw [refineClamp_rmd, refineAdjust_rmd]
      obtain ⟨h1, h2⟩ := ih (refineClamp (refineAdjust s p (t - b.afterTaxIncome)))
        (calculateTaxBreakdown (refineClamp (refineAdjust s p (t - b.afterTaxIncome))) p g)
        (refineClamp_floor _)
      exact ⟨h1.trans hrmd, h2⟩

theorem generateStrategyBase_rmd (p : Portfolio) (g : IncomeGoal) :
    (generateStrategyBase p g).rmdAmount = rmdRequiredOf p g := rfl

theorem generateStrategyBase_floor (p : Portfolio) (g : IncomeGoal) :
    (generateStrategyBase p g).rmdAmount ≤ (generateStrategyBase p g).traditionalWithdrawal :=
  le_max_right _ _

theorem priorYearBalanceOf_eq (p : Portfolio) (t : TraditionalAccount)
    (ht : p.traditional = some t) :
    priorYearBalanceOf p = t.priorYearEndBalance.getD t.balance := by
  unfold priorYearBalanceOf traditionalAvailable
  rw [ht]
  simp

/-- C1.  For any portfolio with a traditional account and any goal with
`primaryAge ≥ 73` (either target type, any amount), `generateStrategy`
reports `rmdAmount` as the RMD computed from the prior-year-end balance
(defaulting to the current balance) and returns
`traditionalWithdrawal ≥ rmdAmount`. -/
theorem strategy_rmd_floor (p : Portfolio) (g : IncomeGoal) (t : TraditionalAccount)
    (ht : p.traditional = some t) (hage : 73 ≤ g.primaryAge) :
    (generateStrategy p g).rmdAmount =
      (calculateRMD g.primaryAge (t.priorYearEndBalance.getD t.balance)).amount ∧
    (generateStrategy p g).rmdAmount ≤ (generateStrategy p g).traditionalWithdrawal := by
  have hr : rmdRequiredOf p g =
      (calculateRMD g.primaryAge (t.priorYearEndBalance.getD t.balance)).amount := by
    unfold rmdRequiredOf
    rw [priorYearBalanceOf_eq p t ht]
  unfold generateStrategy
  by_cases htt : g.targetType = .afterTax
  · rw [if_pos htt]
    unfold refineForAfterTaxTarget
    obtain ⟨h1, h2⟩ := refineLoop_rmd_floor p g g.amount 15 (generateStrategyBase p g)
      (calculateTaxBreakdown (generateStrategyBase p g) p g)
      (generateStrategyBase_floor p g)
    exact ⟨by rw [h1, generateStrategyBase_rmd, hr], h2⟩
  · rw [if_neg htt]
    exact ⟨by rw [generateStrategyBase_rmd, hr], generateStrategyBase_floor p g⟩

/-- Witness for C1 at a concrete input. -/
theorem strategy_rmd_floor_witness :
    (⟨none, some ⟨500000, none⟩, none, none, none⟩ : Portfolio).traditional =
      some ⟨500000, none⟩ ∧
    73 ≤ (⟨.gross, 0, .single, 73, none, false, none, .none, none, none, 95⟩ :
      IncomeGoal).primaryAge ∧
    ((generateStrategy ⟨none, some ⟨500000, none⟩, none, none, none⟩
        ⟨.gross, 0, .single, 73, none, false, none, .none, none, none, 95⟩).rmdAmount =
      (calculateRMD 73 ((none : Option ℚ).getD 500000)).amount ∧
    (generateStrategy ⟨none, some ⟨500000, none⟩, none, none, none⟩
        ⟨.gross, 0, .single, 73, none, false, none, .none, none, none, 95⟩).rmdAmount ≤
      (generateStrategy ⟨none, some ⟨500000, none⟩, none, none, none⟩
        ⟨.gross, 0, .single, 73, none, false, none, .none, none, none, 95⟩).traditionalWithdrawal) :=
  ⟨rfl, le_refl _,
    strategy_rmd_floor ⟨none, some ⟨500000, none⟩, none, none, none⟩
      ⟨.gross, 0, .single, 73, none, false, none, .none, none, none, 95⟩
      ⟨500000, none⟩ rfl (le_refl _)⟩

/-! #### C10: all strategy amounts are non-negative -/

/-- All balances and benefits in the portfolio are non-negative. -/
def PortfolioNonneg (p : Portfolio) : Prop :=
  (∀ t, p.traditional = some t →
    0 ≤ t.balance ∧ ∀ b, t.priorYearEndBalance = some b → 0 ≤ b) ∧
  (∀ a, p.taxable = some a → 0 ≤ a.balance) ∧
  (∀ r, p.roth = some r → 0 ≤ r.balance) ∧
  (∀ s, p.socialSecurity = some s → 0 ≤ s.annualBenefit) ∧
  (∀ q, p.pension = some q → 0 ≤ q.annualBenefit)

/-- The invariant carried through generation and refinement: every amount
other than the traditional withdrawal is non-negative, and the traditional
withdrawal is at least the (non-negative) RMD. -/
def StrategyNonneg (s : WithdrawalStrategy) : Prop :=
  0 ≤ s.taxableWithdrawal ∧ 0 ≤ s.rothWithdrawal ∧
  0 ≤ s.socialSecurityIncome ∧ 0 ≤ s.pensionIncome ∧
  0 ≤ s.rmdAmount ∧ s.rmdAmount ≤ s.traditionalWithdrawal

theorem ssAnnualOf_nonneg (p : Portfolio) (hp : PortfolioNonneg p) :
    0 ≤ ssAnnualOf p := by
  unfold ssAnnualOf
  rcases h : p.socialSecurity with _ | s
  · simp
  · simpa using hp.2.2.2.1 s h

theorem pensionAnnualOf_nonneg (p : Portfolio) (hp : PortfolioNonneg p) :
    0 ≤ pensionAnnualOf p := by
  unfold pensionAnnualOf
  rcases h : p.pension with _ | q
  · simp
  · simpa using hp.2.2.2.2 q h

theorem phase1Loop_fst_le (ded ss pen avail : ℚ) (fs : FilingStatus) :
    ∀ (bs : List LowBracket) (st : ℚ × ℚ),
      st.1 ≤ (phase1Loop ded ss pen avail fs bs st).1 := by
  intro bs
  induction bs with
  | nil => intro st; exact le_refl _
  | cons b rest ih =>
    intro st
    obtain ⟨trad, rem⟩ := st
    rw [phase1Loop]
    by_cases h1 : rem ≤ 0
    · rw [if_pos h1]
    · rw [if_neg h1]
      by_cases h2 : avail ≤ trad
      · rw [if_pos h2]
      · rw [if_neg h2]
        push_neg at h1 h2
        split
        · -- bounded bracket
          dsimp only
          split_ifs with h3 h4
          · -- positive room, 1.85 divisor
            refine le_trans ?_ (ih _)
            dsimp only
            apply le_add_of_nonneg_right
            exact le_min (div_nonneg (le_max_left _ _) (by norm_num))
              (le_min h1.le (by linarith))
          · -- positive room, 1.5 divisor
            refine le_trans ?_ (ih _)
            dsimp only
            apply le_add_of_nonneg_right
            exact le_min (div_nonneg (le_max_left _ _) (by norm_num))
              (le_min h1.le (by linarith))
          · exact ih (trad, rem)
        · -- unbounded bracket: minimum of the two finite bounds
          dsimp only
          refine le_trans ?_ (ih _)
          dsimp only
          apply le_add_of_nonneg_right
          exact le_min h1.le (by linarith)

theorem zeroCapBracket_max_pos (fs : FilingStatus) :
    ∃ zm : ℚ, ((CAPITAL_GAINS_BRACKETS fs).headD ⟨0, none, 0⟩).max = some zm ∧ 0 < zm := by
  cases fs <;> exact ⟨_, rfl, by norm_num⟩

theorem phase2Amount_nonneg (p : Portfolio) (g : IncomeGoal) :
    0 ≤ phase2Amount p g := by
  unfold phase2Amount
  split_ifs with h
  · obtain ⟨zm, hzm, hzmpos⟩ := zeroCapBracket_max_pos g.filingStatus
    dsimp only
    rw [hzm]
    dsimp only
    split_ifs with hlt hfrac
    · have hroom : (0:ℚ) ≤
          zm - max 0 ((phase1Result p g).1 + finalSSTaxableOf p g - strategyDeduction g) := by
        have := max_lt hzmpos hlt
        linarith
      exact le_min h.1.le (le_min h.2.le (div_nonneg hroom hfrac.le))
    · exact le_min h.1.le (le_min h.2.le h.2.le)
    · exact le_refl (0:ℚ)
  · exact le_refl (0:ℚ)

theorem phase3Amount_nonneg (p : Portfolio) (g : IncomeGoal) :
    0 ≤ phase3Amount p g := by
  unfold phase3Amount
  split_ifs with h
  · exact le_min h.1.le h.2.le
  · exact le_refl 0

theorem phase4Amount_nonneg (p : Portfolio) (g : IncomeGoal) :
    0 ≤ phase4Amount p g := by
  unfold phase4Amount
  split_ifs with h
  · exact le_min h.1.le (by linarith [h.2])
  · exact le_refl 0

theorem phase5Amount_nonneg (p : Portfolio) (g : IncomeGoal) :
    0 ≤ phase5Amount p g := by
  unfold phase5Amount
  split_ifs with h
  · exact le_min h.1.le (by linarith [h.2])
  · exact le_refl 0

theorem generateStrategyBase_nonneg (p : Portfolio) (g : IncomeGoal)
    (hp : PortfolioNonneg p) : StrategyNonneg (generateStrategyBase p g) := by
  have hrmd : 0 ≤ rmdRequiredOf p g := calculateRMD_amount_nonneg _ _
  refine ⟨?_, ?_, ?_, ?_, hrmd, le_max_right _ _⟩
  · exact jsRound_nonneg (add_nonneg (phase2Amount_nonneg p g) (phase5Amount_nonneg p g))
  · exact jsRound_nonneg (phase3Amount_nonneg p g)
  · exact jsRound_nonneg (ssAnnualOf_nonneg p hp)
  · exact jsRound_nonneg (pensionAnnualOf_nonneg p hp)

theorem refineAdjust_nonneg (s : WithdrawalStrategy) (p : Portfolio) (d : ℚ)
    (hs : StrategyNonneg s) : StrategyNonneg (refineAdjust s p d) := by
  obtain ⟨h1, h2, h3, h4, h5, h6⟩ := hs
  have habs : 0 ≤ |d| := abs_nonneg d
  simp only [refineAdjust]
  split_ifs with ha hb hc hd he hf hg
  · exact ⟨h1, le_min (by linarith) (by linarith), h3, h4, h5, h6⟩
  · exact ⟨h1, h2, h3, h4, h5,
      le_min (by linarith) (by linarith)⟩
  · exact ⟨le_min (by linarith) (by linarith), h2, h3, h4, h5, h6⟩
  · exact ⟨h1, h2, h3, h4, h5, h6⟩
  · refine ⟨h1, h2, h3, h4, h5, ?_⟩
    have := min_le_right (|d| * 0.8) (s.traditionalWithdrawal - s.rmdAmount)
    simp only
    linarith
  · refine ⟨?_, h2, h3, h4, h5, h6⟩
    have := min_le_right (|d| * 0.9) s.taxableWithdrawal
    simp only
    linarith
  · refine ⟨h1, ?_, h3, h4, h5, h6⟩
    have := min_le_right |d| s.rothWithdrawal
    simp only
    linarith
  · exact ⟨h1, h2, h3, h4, h5, h6⟩

theorem refineClamp_nonneg (s : WithdrawalStrategy) (hs : StrategyNonneg s) :
    StrategyNonneg (refineClamp s) := by
  obtain ⟨h1, h2, h3, h4, h5, h6⟩ := hs
  exact ⟨jsRound_nonneg h1, jsRound_nonneg h2, h3, h4, h5, le_max_right _ _⟩

theorem refineLoop_nonneg (p : Portfolio) (g : IncomeGoal) (t : ℚ) (fuel : ℕ) :
    ∀ (s : WithdrawalStrategy) (b : TaxBreakdown), StrategyNonneg s →
      StrategyNonneg (refineLoop p g t fuel s b) := by
  induction fuel with
  | zero => exact fun s b h => h
  | succ n ih =>
    intro s b h
    rw [refineLoop]
    by_cases hd : |t - b.afterTaxIncome| < 500
    · rw [if_pos hd]; exact h
    · rw [if_neg hd]
      exact ih _ _ (refineClamp_nonneg _ (refineAdjust_nonneg _ _ _ h))

/-- C10.  For a portfolio with non-negative balances and benefits, every
numeric field of the strategy returned by `generateStrategy` is
non-negative, for any goal (either target type, any amount). -/
theorem strategy_fields_nonneg (p : Portfolio) (g : IncomeGoal)
    (hp : PortfolioNonneg p) :
    0 ≤ (generateStrategy p g).traditionalWithdrawal ∧
    0 ≤ (generateStrategy p g).taxableWithdrawal ∧
    0 ≤ (generateStrategy p g).rothWithdrawal ∧
    0 ≤ (generateStrategy p g).socialSecurityIncome ∧
    0 ≤ (generateStrategy p g).pensionIncome ∧
    0 ≤ (generateStrategy p g).rmdAmount := by
  have hbase : StrategyNonneg (generateStrategyBase p g) :=
    generateStrategyBase_nonneg p g hp
  have hfinal : StrategyNonneg (generateStrategy p g) := by
    unfold generateStrategy
    by_cases htt : g.targetType = .afterTax
    · rw [if_pos htt]
      exact refineLoop_nonneg p g g.amount 15 _ _ hbase
    · rw [if_neg htt]
      exact hbase
  obtain ⟨h1, h2, h3, h4, h5, h6⟩ := hfinal
  exact ⟨le_trans h5 h6, h1, h2, h3, h4, h5⟩

/-- Witness for C10 at a concrete input. -/
theorem strategy_fields_nonneg_witness :
    PortfolioNonneg ⟨none, none, none, none, none⟩ ∧
    (0 ≤ (generateStrategy ⟨none, none, none, none, none⟩
        ⟨.gross, 50000, .single, 70, none, false, none, .none, none, none, 95⟩).traditionalWithdrawal ∧
     0 ≤ (generateStrategy ⟨none, none, none, none, none⟩
        ⟨.gross, 50000, .single, 70, none, false, none, .none, none, none, 95⟩).taxableWithdrawal ∧
     0 ≤ (generateStrategy ⟨none, none, none, none, none⟩
        ⟨.gross, 50000, .single, 70, none, false, none, .none, none, none, 95⟩).rothWithdrawal ∧
     0 ≤ (generateStrategy ⟨none, none, none, none, none⟩
        ⟨.gross, 50000, .single, 70, none, false, none, .none, none, none, 95⟩).socialSecurityIncome ∧
     0 ≤ (generateStrategy ⟨none, none, none, none, none⟩
        ⟨.gross, 50000, .single, 70, none, false, none, .none, none, none, 95⟩).pensionIncome ∧
     0 ≤ (generateStrategy ⟨none, none, none, none, none⟩
        ⟨.gross, 50000, .single, 70, none, false, none, .none, none, none, 95⟩).rmdAmount) := by
  have hp : PortfolioNonneg ⟨none, none, none, none, none⟩ := by
    refine ⟨?_, ?_, ?_, ?_, ?_⟩ <;> intro x hx <;> cases hx
  exact ⟨hp, strategy_fields_nonneg ⟨none, none, none, none, none⟩
    ⟨.gross, 50000, .single, 70, none, false, none, .none, none, none, 95⟩ hp⟩

/-! #### C5 counterexample and witness -/

/-- Counterexample to C5 as stated: a sub-dollar benefit (`B = 1/2`) with
provisional income exactly $25,001 yields raw taxable `0.25`, which the final
rounding maps back to `0` — not `> 0` as claimed. -/
theorem ss_zero_threshold_boundary_counterexample :
    (0:ℚ) < 1/2 ∧ (100003/4 : ℚ) + 0 + (1/2) * 0.5 = 25001 ∧
    ¬ (0 < (calculateSocialSecurityTaxable (1/2) (100003/4) 0 .single).taxableAmount) := by
  refine ⟨by norm_num, by norm_num, ?_⟩
  rw [ssTaxable_amount_eq _ _ _ _ (by norm_num)]
  simp only [reduceCtorEq, if_false]
  norm_num [ssTaxableRaw, SS_TAXATION_THRESHOLDS_single, jsRound]

/-- Witness for C5 (amended) at concrete inputs. -/
theorem ss_single_zero_threshold_boundary_witness :
    (0:ℚ) < 20000 ∧
    ((15000:ℚ) + 0 + 20000 * 0.5 = 25000 →
      (calculateSocialSecurityTaxable 20000 15000 0 .single).taxableAmount = 0) ∧
    ((1:ℚ) ≤ 20000 → (15001:ℚ) + 0 + 20000 * 0.5 = 25001 →
      0 < (calculateSocialSecurityTaxable 20000 15001 0 .single).taxableAmount) ∧
    (15000:ℚ) + 0 + 20000 * 0.5 = 25000 ∧ (1:ℚ) ≤ 20000 ∧
    (15001:ℚ) + 0 + 20000 * 0.5 = 25001 :=
  ⟨by norm_num,
   (ss_single_zero_threshold_boundary 20000 15000 0 (by norm_num)).1,
   (ss_single_zero_threshold_boundary 20000 15001 0 (by norm_num)).2,
   by norm_num, by norm_num, by norm_num⟩

/-! ### Projection engine (src/engine/projectionEngine.ts)

`new Date().getFullYear()` is impure; it enters the embedding as the
`currentYear` parameter (it only affects the cosmetic `year` labels). -/

structure ProjectionAssumptions where
  growthRate : ℚ
  inflationRate : ℚ
  socialSecurityCOLA : ℚ
deriving DecidableEq, Repr

def DEFAULT_ASSUMPTIONS : ProjectionAssumptions := ⟨0.05, 0.025, 0.025⟩

structure YearBalances where
  traditional : ℚ
  taxable : ℚ
  roth : ℚ
  total : ℚ
deriving Repr

structure YearWithdrawals where
  traditional : ℚ
  taxable : ℚ
  roth : ℚ
  socialSecurity : ℚ
  pension : ℚ
  total : ℚ
deriving Repr

structure YearTaxes where
  federal : ℚ
  state : ℚ
  total : ℚ
deriving Repr

structure ProjectionYear where
  year : ℕ
  age : ℕ
  balances : YearBalances
  rmdAmount : ℚ
  withdrawals : YearWithdrawals
  taxes : YearTaxes
  afterTaxIncome : ℚ
  effectiveRate : ℚ
deriving Repr

structure RetirementProjection where
  startAge : ℕ
  endAge : ℕ
  assumptions : ProjectionAssumptions
  years : List ProjectionYear
  totalTaxesPaid : ℚ
  totalWithdrawals : ℚ
  finalPortfolioValue : ℚ
  isSustainable : Bool
  depletionAge : Option ℕ
deriving Repr

/-- The running mutable locals of the projection loop. -/
structure ProjState where
  traditionalBalance : ℚ
  taxableBalance : ℚ
  rothBalance : ℚ
  taxableCostBasis : ℚ
  socialSecurityBenefit : ℚ
  pensionBenefit : ℚ
  totalTaxesPaid : ℚ
  totalWithdrawals : ℚ
  depletionAge : Option ℕ
  years : List ProjectionYear
deriving Repr

def initProjState (portfolio : Portfolio) : ProjState :=
  { traditionalBalance := (portfolio.traditional.map (·.balance)).getD 0
    taxableBalance := (portfolio.taxable.map (·.balance)).getD 0
    rothBalance := (portfolio.roth.map (·.balance)).getD 0
    taxableCostBasis := (portfolio.taxable.map (·.costBasis)).getD 0
    socialSecurityBenefit := (portfolio.socialSecurity.map (·.annualBenefit)).getD 0
    pensionBenefit := (portfolio.pension.map (·.annualBenefit)).getD 0
    totalTaxesPaid := 0
    totalWithdrawals := 0
    depletionAge := none
    years := [] }

/-- Beginning-of-year total of the running account balances. -/
def totalOf (st : ProjState) : ℚ :=
  st.traditionalBalance + st.taxableBalance + st.rothBalance

/-- One iteration of the per-year loop (source loop body, steps 1–8 of §4.7). -/
def projYearStep (goal : IncomeGoal) (assumptions : ProjectionAssumptions)
    (pensionCola : ℚ) (initPair : Option (WithdrawalStrategy × TaxBreakdown))
    (startAge currentYear : ℕ) (age : ℕ) (st : ProjState) : ProjState :=
  let yearOffset := age - startAge
  let year := currentYear + yearOffset
  let totalBalance := st.traditionalBalance + st.taxableBalance + st.rothBalance
  -- depletion check on the beginning-of-year balances (first hit only)
  let depletionAge' :=
    if totalBalance ≤ 0 ∧ st.depletionAge = none then some age else st.depletionAge
  -- point-in-time snapshot; zero-balance accounts are absent, the running
  -- balance doubles as the prior-year-end proxy
  let yearPortfolio : Portfolio :=
    { taxable :=
        if 0 < st.taxableBalance then
          some ⟨st.taxableBalance, st.taxableCostBasis, st.taxableBalance - st.taxableCostBasis⟩
        else none
      traditional :=
        if 0 < st.traditionalBalance then
          some ⟨st.traditionalBalance, some st.traditionalBalance⟩
        else none
      roth := if 0 < st.rothBalance then some ⟨st.rothBalance⟩ else none
      socialSecurity :=
        if 0 < st.socialSecurityBenefit then some ⟨st.socialSecurityBenefit⟩ else none
      pension := if 0 < st.pensionBenefit then some ⟨st.pensionBenefit, pensionCola⟩ else none }
  -- inflation-adjusted goal; a zero spouse age is falsy in JS and stays unset
  let inflationMultiplier := (1 + assumptions.inflationRate) ^ yearOffset
  let adjustedSpouseAge :=
    match goal.spouseAge with
    | some sa => if sa ≠ 0 then some (sa + yearOffset) else none
    | none => none
  let adjustedGoal : IncomeGoal :=
    { goal with
      amount := jsRound (goal.amount * inflationMultiplier)
      primaryAge := age
      spouseAge := adjustedSpouseAge }
  -- year 1 uses the supplied override pair verbatim when both are provided
  let generateForYear : Unit → WithdrawalStrategy × TaxBreakdown := fun _ =>
    if 0 < totalBalance ∨ 0 < st.socialSecurityBenefit ∨ 0 < st.pensionBenefit then
      let s := generateStrategy yearPortfolio adjustedGoal
      (s, calculateTaxBreakdown s yearPortfolio adjustedGoal)
    else
      -- portfolio and income exhausted: zero strategy with residual SS/pension
      let s : WithdrawalStrategy :=
        ⟨0, 0, 0, st.socialSecurityBenefit, st.pensionBenefit, 0, true⟩
      (s, calculateTaxBreakdown s yearPortfolio adjustedGoal)
  let sb : WithdrawalStrategy × TaxBreakdown :=
    match initPair with
    | some pair => if age = startAge then pair else generateForYear ()
    | none => generateForYear ()
  let strategy := sb.1
  let breakdown := sb.2
  let yearData : ProjectionYear :=
    { year := year
      age := age
      balances :=
        ⟨jsRound st.traditionalBalance, jsRound st.taxableBalance, jsRound st.rothBalance,
         jsRound totalBalance⟩
      rmdAmount := strategy.rmdAmount
      withdrawals :=
        ⟨strategy.traditionalWithdrawal, strategy.taxableWithdrawal, strategy.rothWithdrawal,
         strategy.socialSecurityIncome, strategy.pensionIncome,
         strategy.traditionalWithdrawal + strategy.taxableWithdrawal +
           strategy.rothWithdrawal + strategy.socialSecurityIncome + strategy.pensionIncome⟩
      taxes :=
        ⟨breakdown.ordinaryIncomeTax + breakdown.capitalGainsTax, breakdown.stateTax,
         breakdown.totalTax⟩
      afterTaxIncome := breakdown.afterTaxIncome
      effectiveRate := breakdown.effectiveRate }
  -- apply withdrawals (floored at 0), shrink cost basis proportionally
  let traditionalBalance' := max 0 (st.traditionalBalance - strategy.traditionalWithdrawal)
  let taxableBalance' := max 0 (st.taxableBalance - strategy.taxableWithdrawal)
  let rothBalance' := max 0 (st.rothBalance - strategy.rothWithdrawal)
  let taxableCostBasis' : ℚ :=
    match yearPortfolio.taxable with
    | some acct =>
      if 0 < strategy.taxableWithdrawal then
        max 0 (st.taxableCostBasis * (1 - strategy.taxableWithdrawal / acct.balance))
      else st.taxableCostBasis
    | none => st.taxableCostBasis
  -- end-of-year growth; basis grows by its share of the gains portion
  let traditionalGrown := traditionalBalance' * (1 + assumptions.growthRate)
  let taxableGrown := taxableBalance' * (1 + assumptions.growthRate)
  let rothGrown := rothBalance' * (1 + assumptions.growthRate)
  let taxableCostBasisGrown :=
    if 0 < taxableGrown then
      taxableCostBasis' + (taxableGrown - taxableCostBasis') * assumptions.growthRate
    else taxableCostBasis'
  { traditionalBalance := traditionalGrown
    taxableBalance := taxableGrown
    rothBalance := rothGrown
    taxableCostBasis := taxableCostBasisGrown
    socialSecurityBenefit := st.socialSecurityBenefit * (1 + assumptions.socialSecurityCOLA)
    pensionBenefit := st.pensionBenefit * (1 + pensionCola)
    totalTaxesPaid := st.totalTaxesPaid + breakdown.totalTax
    totalWithdrawals := st.totalWithdrawals + yearData.withdrawals.total
    depletionAge := depletionAge'
    years := st.years ++ [yearData] }

/-- The projection loop: run `n` consecutive yearly steps starting at `age`. -/
def projRun (goal : IncomeGoal) (assumptions : ProjectionAssumptions)
    (pensionCola : ℚ) (initPair : Option (WithdrawalStrategy × TaxBreakdown))
    (startAge currentYear : ℕ) : ℕ → ℕ → ProjState → ProjState
  | _, 0, st => st
  | age, n + 1, st =>
    projRun goal assumptions pensionCola initPair startAge currentYear (age + 1) n
      (projYearStep goal assumptions pensionCola initPair startAge currentYear age st)

def generateRetirementProjection (portfolio : Portfolio) (goal : IncomeGoal)
    (assumptions : ProjectionAssumptions := DEFAULT_ASSUMPTIONS)
    (initialStrategy : Option WithdrawalStrategy := none)
    (initialBreakdown : Option TaxBreakdown := none)
    (currentYear : ℕ := TAX_YEAR) : RetirementProjection :=
  let startAge := goal.primaryAge
  let endAge := goal.planningHorizon
  let pensionCola := (portfolio.pension.map (·.cola)).getD 0
  let initPair :=
    match initialStrategy, initialBreakdown with
    | some s, some b => some (s, b)
    | _, _ => none
  let final := projRun goal assumptions pensionCola initPair startAge currentYear
    startAge (endAge + 1 - startAge) (initProjState portfolio)
  { startAge := startAge
    endAge := endAge
    assumptions := assumptions
    years := final.years
    totalTaxesPaid := jsRound final.totalTaxesPaid
    totalWithdrawals := jsRound final.totalWithdrawals
    finalPortfolioValue :=
      jsRound (final.traditionalBalance + final.taxableBalance + final.rothBalance)
    isSustainable := final.depletionAge.isNone
    depletionAge := final.depletionAge }

/-- The running state after `k` of the projection's yearly steps. -/
def projStateAt (portfolio : Portfolio) (goal : IncomeGoal)
    (assumptions : ProjectionAssumptions)
    (initialStrategy : Option WithdrawalStrategy)
    (initialBreakdown : Option TaxBreakdown) (currentYear : ℕ) (k : ℕ) : ProjState :=
  projRun goal assumptions ((portfolio.pension.map (·.cola)).getD 0)
    (match initialStrategy, initialBreakdown with
      | some s, some b => some (s, b)
      | _, _ => none)
    goal.primaryAge currentYear goal.primaryAge k (initProjState portfolio)

/-! #### C8 lemmas -/

theorem projYearStep_depletionAge (goal : IncomeGoal) (assumptions : ProjectionAssumptions)
    (pensionCola : ℚ) (initPair : Option (WithdrawalStrategy × TaxBreakdown))
    (startAge currentYear age : ℕ) (st : ProjState) :
    (projYearStep goal assumptions pensionCola initPair startAge currentYear age st).depletionAge =
      if totalOf st ≤ 0 ∧ st.depletionAge = none then some age else st.depletionAge := rfl

theorem projRun_succ_left (goal : IncomeGoal) (assumptions : ProjectionAssumptions)
    (pensionCola : ℚ) (initPair : Option (WithdrawalStrategy × TaxBreakdown))
    (startAge currentYear age n : ℕ) (st : ProjState) :
    projRun goal assumptions pensionCola initPair startAge currentYear age (n + 1) st =
      projRun goal assumptions pensionCola initPair startAge currentYear (age + 1) n
        (projYearStep goal assumptions pensionCola initPair startAge currentYear age st) := rfl

theorem projRun_depletion_some (goal : IncomeGoal) (assumptions : ProjectionAssumptions)
    (pensionCola : ℚ) (initPair : Option (WithdrawalStrategy × TaxBreakdown))
    (startAge currentYear : ℕ) (n : ℕ) :
    ∀ (age : ℕ) (st : ProjState) (a : ℕ), st.depletionAge = some a →
      (projRun goal assumptions pensionCola initPair startAge currentYear age n st).depletionAge
        = some a := by
  induction n with
  | zero => intro age st a h; exact h
  | succ m ih =>
    intro age st a h
    rw [projRun_succ_left]
    refine ih (age + 1) _ a ?_
    rw [projYearStep_depletionAge, if_neg]
    · exact h
    · rintro ⟨-, h2⟩
      rw [h] at h2
      cases h2

/-- Depletion characterization of the projection loop: starting from an
unset depletion age, the final depletion age is `some a` exactly when `a` is
the age of the first step whose beginning-of-year balance total is ≤ 0. -/
theorem projRun_depletion_spec (goal : IncomeGoal) (assumptions : ProjectionAssumptions)
    (pensionCola : ℚ) (initPair : Option (WithdrawalStrategy × TaxBreakdown))
    (startAge currentYear : ℕ) (n : ℕ) :
    ∀ (age : ℕ) (st : ProjState), st.depletionAge = none → ∀ a : ℕ,
      ((projRun goal assumptions pensionCola initPair startAge currentYear age n st).depletionAge
          = some a ↔
        ∃ k, k < n ∧ a = age + k ∧
          totalOf (projRun goal assumptions pensionCola initPair startAge currentYear age k st) ≤ 0 ∧
          ∀ j < k,
            ¬ totalOf (projRun goal assumptions pensionCola initPair startAge currentYear age j st) ≤ 0) := by
  induction n with
  | zero =>
    intro age st h0 a
    constructor
    · intro h
      rw [show projRun goal assumptions pensionCola initPair startAge currentYear age 0 st = st
          from rfl, h0] at h
      cases h
    · rintro ⟨k, hk, -⟩
      exact absurd hk (Nat.not_lt_zero k)
  | succ m ih =>
    intro age st h0 a
    rw [projRun_succ_left]
    by_cases hdep : totalOf st ≤ 0
    · -- this year already depletes: the step records `age` and it persists
      have hstep : (projYearStep goal assumptions pensionCola initPair startAge currentYear
          age st).depletionAge = some age := by
        rw [projYearStep_depletionAge, if_pos ⟨hdep, h0⟩]
      rw [projRun_depletion_some goal assumptions pensionCola initPair startAge currentYear
        m (age + 1) _ age hstep]
      constructor
      · intro h
        injection h with h
        subst h
        exact ⟨0, Nat.succ_pos m, (Nat.add_zero age).symm, hdep,
          fun j hj => absurd hj (Nat.not_lt_zero j)⟩
      · rintro ⟨k, hk, rfl, hk2, hk3⟩
        cases k with
        | zero => rfl
        | succ i => exact absurd hdep (hk3 0 (Nat.succ_pos i))
    · -- balances still positive: the step keeps the depletion age unset
      have hstep : (projYearStep goal assumptions pensionCola initPair startAge currentYear
          age st).depletionAge = none := by
        rw [projYearStep_depletionAge, if_neg (fun hc => hdep hc.1)]
        exact h0
      rw [ih (age + 1) _ hstep a]
      constructor
      · rintro ⟨k, hk, rfl, h1, h2⟩
        refine ⟨k + 1, by omega, by omega, h1, ?_⟩
        intro j hj
        cases j with
        | zero => exact hdep
        | succ i => exact h2 i (by omega)
      · rintro ⟨k, hk, rfl, h1, h2⟩
        cases k with
        | zero => exact absurd h1 hdep
        | succ i =>
          exact ⟨i, by omega, by omega, h1, fun j hj => h2 (j + 1) (by omega)⟩

/-- C8.  A projection is sustainable exactly when no depletion age was
recorded, and a recorded depletion age is precisely the age of the first
year of the loop whose beginning-of-year running balance total
(traditional + taxable + Roth) is ≤ 0. -/
theorem projection_depletion_spec (portfolio : Portfolio) (goal : IncomeGoal)
    (assumptions : ProjectionAssumptions) (initialStrategy : Option WithdrawalStrategy)
    (initialBreakdown : Option TaxBreakdown) (currentYear : ℕ) :
    ((generateRetirementProjection portfolio goal assumptions initialStrategy
        initialBreakdown currentYear).isSustainable = true ↔
      (generateRetirementProjection portfolio goal assumptions initialStrategy
        initialBreakdown currentYear).depletionAge = none) ∧
    (∀ a : ℕ,
      (generateRetirementProjection portfolio goal assumptions initialStrategy
          initialBreakdown currentYear).depletionAge = some a ↔
        ∃ k, k < goal.planningHorizon + 1 - goal.primaryAge ∧ a = goal.primaryAge + k ∧
          totalOf (projStateAt portfolio goal assumptions initialStrategy initialBreakdown
            currentYear k) ≤ 0 ∧
          ∀ j < k,
            ¬ totalOf (projStateAt portfolio goal assumptions initialStrategy initialBreakdown
              currentYear j) ≤ 0) := by
  constructor
  · exact Option.isNone_iff_eq_none
  · intro a
    exact projRun_depletion_spec goal assumptions
      ((portfolio.pension.map (·.cola)).getD 0)
      (match initialStrategy, initialBreakdown with
        | some s, some b => some (s, b)
        | _, _ => none)
      goal.primaryAge currentYear (goal.planningHorizon + 1 - goal.primaryAge)
      goal.primaryAge (initProjState portfolio) rfl a
